import Mathlib

/-!
# uberAgentEndpointMetrics: coercion, merge and formatting

A shallow embedding of `pkg/wmi/citrix_metrics.go` and of the merge loop of
`main.go`, followed by theorems about them.

Conventions of the embedding.

* A Go `uint64` is a `Nat` below `2^64`, a Go `int64` an `Int` in
  `[-2^63, 2^63)`; Go's integer conversions are written out with their
  reduction modulo `2^64` (`toUint64`, `toInt64`).
* A Go `string` is a `String`; loops over its bytes are loops over its
  characters (every byte of a multi-byte UTF-8 character is `≥ 0x80` and
  takes the same branch as the character's code point, which is `≥ 0x80` too).
* Go's `float64`/`float32`, their conversions, `strconv.ParseFloat` and the
  `%v` rendering of a float are language and library built-ins: they are the
  fields of a `GoFloat`, a parameter of the development. The instance
  `binary64` has the values of a `float64` and reads a text as the functions
  of `strconv/atof.go` do (`ParseFloat`); the instance `integralFloat` has the
  small integers only.
* A `*ole.VARIANT` is an `Option (Value fl)`: `none` is the nil pointer,
  `some x` a variant whose `Value()` is the dynamic value `x`.
* The COM calls of `GetCitrixMetrics` are an oracle (`Provider`) whose calls
  return a value or an error; the handles of a run are explicit state
  (`Handles`): what was obtained, the pending `defer` statements, and what
  was released.
* Standard output is the text written to it.
-/

namespace EndpointMetrics

/-! ## Go built-ins -/

/-- Go's conversion `uint64(v)` of an integer: reduction modulo `2^64`. -/
def toUint64 (v : Int) : Nat := (v % 2 ^ 64).toNat

/-- Go's conversion `int64(v)` of an integer: two's-complement reduction into
`[-2^63, 2^63)`. -/
def toInt64 (v : Int) : Int := (v + 2 ^ 63) % 2 ^ 64 - 2 ^ 63

/-- Go's floating-point types with the built-in and library operations the
program applies to them. -/
structure GoFloat where
  /-- Go's `float64`. -/
  F64 : Type
  /-- Go's `float32`. -/
  F32 : Type
  /-- The constant `0` as a `float64`. -/
  zero : F64
  /-- The conversion `float64(v)` of an integer value. -/
  ofInt : Int → F64
  /-- The conversion `float64(v)` of a `float32`. -/
  ofF32 : F32 → F64
  /-- The comparison `v >= 0` on `float64`. -/
  geZero : F64 → Bool
  /-- The comparison `v >= 0` on `float32`. -/
  geZero32 : F32 → Bool
  /-- The conversion `uint64(v)` of a `float64`. -/
  truncU64 : F64 → Nat
  /-- The conversion `uint64(v)` of a `float32`. -/
  truncU64of32 : F32 → Nat
  /-- The conversion `int64(v)` of a `float64`. -/
  truncI64 : F64 → Int
  /-- The conversion `int64(v)` of a `float32`. -/
  truncI64of32 : F32 → Int
  /-- The call `strconv.ParseFloat(s, 64)`; `none` when it returns an error. -/
  parseFloat : String → Option F64
  /-- The `%v` rendering of a `float64` by package `fmt`. -/
  format : F64 → String

/-- Go's `time.Time`, as nanoseconds since its zero value. -/
structure Time where
  nanos : Int
deriving DecidableEq, Repr

/-- The zero value of `time.Time`. -/
def Time.zero : Time := ⟨0⟩

/-- The dynamic value returned by `(*ole.VARIANT).Value()`: the Go types the
type switches of the program can meet. Signed payloads are `Int`, unsigned
ones `Nat`; `Value.WF` states the range of each width. -/
inductive Value (fl : GoFloat) where
  | null
  | int8 (v : Int)
  | int16 (v : Int)
  | int32 (v : Int)
  | int64 (v : Int)
  | int (v : Int)
  | uint8 (v : Nat)
  | uint16 (v : Nat)
  | uint32 (v : Nat)
  | uint64 (v : Nat)
  | uint (v : Nat)
  | float32 (v : fl.F32)
  | float64 (v : fl.F64)
  | string (v : String)
  | bool (v : Bool)
  | time (v : Time)
  | handle

/-- The payload of an integer value lies in the range of its Go type. -/
def Value.WF {fl : GoFloat} : Value fl → Prop
  | .int8 v => -2 ^ 7 ≤ v ∧ v < 2 ^ 7
  | .int16 v => -2 ^ 15 ≤ v ∧ v < 2 ^ 15
  | .int32 v => -2 ^ 31 ≤ v ∧ v < 2 ^ 31
  | .int64 v => -2 ^ 63 ≤ v ∧ v < 2 ^ 63
  | .int v => -2 ^ 63 ≤ v ∧ v < 2 ^ 63
  | .uint8 v => v < 2 ^ 8
  | .uint16 v => v < 2 ^ 16
  | .uint32 v => v < 2 ^ 32
  | .uint64 v => v < 2 ^ 64
  | .uint v => v < 2 ^ 64
  | _ => True

/-! ## `strconv.ParseUint` and `strconv.ParseInt` -/

/-- The two errors of package `strconv`: `ErrSyntax` and `ErrRange`. -/
inductive NumError where
  | malformed
  | outOfRange
deriving DecidableEq, Repr

/-- The helper `lower` of package `strconv`: `c | ('x' - 'X')`. -/
def lower (c : Nat) : Nat := c ||| 32

/-- The digit value the loop of `strconv.ParseUint` assigns to a character
(`base` is not 0, so `_` is no separator); `none` is the `default` arm. -/
def digitVal (c : Nat) : Option Nat :=
  if 48 ≤ c ∧ c ≤ 57 then some (c - 48)
  else if 97 ≤ lower c ∧ lower c ≤ 122 then some (lower c - 97 + 10)
  else none

/-- The loop of `strconv.ParseUint` over the characters left to read, `n`
being the value accumulated so far; the result is Go's `(uint64, error)`. -/
def parseUintLoop (base cutoff maxVal : Nat) : List Char → Nat → Nat × Option NumError
  | [], n => (n, none)
  | c :: cs, n =>
    match digitVal c.toNat with
    | none => (0, some .malformed)
    | some d =>
      if d ≥ base then (0, some .malformed)
      else if n ≥ cutoff then (maxVal, some .outOfRange)
      else
        let n' := (n * base) % 2 ^ 64
        let n1 := (n' + d) % 2 ^ 64
        if n1 < n' ∨ n1 > maxVal then (maxVal, some .outOfRange)
        else parseUintLoop base cutoff maxVal cs n1

/-- The function `strconv.ParseUint(s, base, bitSize)` for an explicit base
`2 ≤ base ≤ 36` and `1 ≤ bitSize ≤ 64`. -/
def ParseUint (s : String) (base bitSize : Nat) : Nat × Option NumError :=
  if s = "" then (0, some .malformed)
  else
    let cutoff := (2 ^ 64 - 1) / base + 1
    let maxVal := 2 ^ bitSize - 1
    parseUintLoop base cutoff maxVal s.data 0

/-- The function `strconv.ParseInt(s, base, bitSize)` for an explicit base
`2 ≤ base ≤ 36` and `1 ≤ bitSize ≤ 64`; the result is Go's `(int64, error)`. -/
def ParseInt (s : String) (base bitSize : Nat) : Int × Option NumError :=
  match s.data with
  | [] => (0, some .malformed)
  | c :: cs =>
    let neg := decide (c = '-')
    let rest : List Char := if c = '+' then cs else if c = '-' then cs else c :: cs
    match ParseUint (String.mk rest) base bitSize with
    | (_, some .malformed) => (0, some .malformed)
    | (un, _) =>
      let cutoff : Nat := 2 ^ (bitSize - 1)
      if !neg ∧ un ≥ cutoff then (toInt64 (cutoff - 1 : Nat), some .outOfRange)
      else if neg ∧ un > cutoff then (toInt64 (-(toInt64 cutoff)), some .outOfRange)
      else
        let n := toInt64 un
        (if neg then toInt64 (-n) else n, none)

/-! ## The coercion helpers of `pkg/wmi/citrix_metrics.go` -/

/-- The function `convertToUint64`. -/
def convertToUint64 {fl : GoFloat} (val : Option (Value fl)) : Nat :=
  match val with
  | none => 0
  | some x =>
    match x with
    | .uint64 v => v
    | .int64 v => if v ≥ 0 then toUint64 v else 0
    | .uint32 v => toUint64 v
    | .int32 v => if v ≥ 0 then toUint64 v else 0
    | .uint16 v => toUint64 v
    | .int16 v => if v ≥ 0 then toUint64 v else 0
    | .uint8 v => toUint64 v
    | .int8 v => if v ≥ 0 then toUint64 v else 0
    | .float64 v => if fl.geZero v then fl.truncU64 v else 0
    | .float32 v => if fl.geZero32 v then fl.truncU64of32 v else 0
    | .string v =>
      match ParseUint v 10 64 with
      | (parsed, none) => parsed
      | (_, some _) => 0
    | _ => 0

/-- The function `convertToInt64`. -/
def convertToInt64 {fl : GoFloat} (val : Option (Value fl)) : Int :=
  match val with
  | none => 0
  | some x =>
    match x with
    | .int64 v => v
    | .uint64 v => if v ≤ 9223372036854775807 then toInt64 v else 0
    | .int32 v => toInt64 v
    | .uint32 v => toInt64 v
    | .int16 v => toInt64 v
    | .uint16 v => toInt64 v
    | .int8 v => toInt64 v
    | .uint8 v => toInt64 v
    | .float64 v => fl.truncI64 v
    | .float32 v => fl.truncI64of32 v
    | .string v =>
      match ParseInt v 10 64 with
      | (parsed, none) => parsed
      | (_, some _) => 0
    | _ => 0

/-- The function `convertToFloat64`. -/
def convertToFloat64 {fl : GoFloat} (val : Option (Value fl)) : fl.F64 :=
  match val with
  | none => fl.zero
  | some x =>
    match x with
    | .float64 v => v
    | .float32 v => fl.ofF32 v
    | .int64 v => fl.ofInt v
    | .uint64 v => fl.ofInt v
    | .int32 v => fl.ofInt v
    | .uint32 v => fl.ofInt v
    | .int16 v => fl.ofInt v
    | .uint16 v => fl.ofInt v
    | .int8 v => fl.ofInt v
    | .uint8 v => fl.ofInt v
    | .string v =>
      match fl.parseFloat v with
      | some parsed => parsed
      | none => fl.zero
    | _ => fl.zero

/-! ## Package `fmt`: the directives the program uses -/

/-- The digit loop of `fmt`'s integer formatting in base 10: the digits of
`u` are pushed in front of `buf`, least significant first. The first argument
bounds the number of iterations; `u` itself is always enough. -/
def fmtDigits : Nat → Nat → List Char → List Char
  | 0, u, buf => Char.ofNat (48 + u % 10) :: buf
  | fuel + 1, u, buf =>
    if u ≥ 10 then fmtDigits fuel (u / 10) (Char.ofNat (48 + u % 10) :: buf)
    else Char.ofNat (48 + u) :: buf

/-- The rendering of a `uint64` by `%v` and `%d`: its decimal digits. -/
def fmtUint (u : Nat) : String := String.mk (fmtDigits u u [])

/-- The rendering of an `int64` by `%v` and `%d`: a `-` for a negative value,
then the decimal digits of its magnitude. -/
def fmtInt (v : Int) : String :=
  if v < 0 then String.mk ('-' :: fmtDigits (toUint64 (-v)) (toUint64 (-v)) [])
  else fmtUint (toUint64 v)

/-- An operand of `fmt.Sprintf`, tagged with its Go type. -/
inductive Arg (fl : GoFloat) where
  | float64 (v : fl.F64)
  | uint64 (v : Nat)
  | int64 (v : Int)
  | string (v : String)

/-- The name `fmt` prints for the type of an operand. -/
def Arg.typeName {fl : GoFloat} : Arg fl → String
  | .float64 _ => "float64"
  | .uint64 _ => "uint64"
  | .int64 _ => "int64"
  | .string _ => "string"

/-- The `%v` rendering of an operand. -/
def Arg.fmtV {fl : GoFloat} : Arg fl → String
  | .float64 v => fl.format v
  | .uint64 v => fmtUint v
  | .int64 v => fmtInt v
  | .string v => v

/-- What `fmt` prints for a verb that is not defined for the operand's type. -/
def Arg.badVerb {fl : GoFloat} (verb : Char) (a : Arg fl) : String :=
  "%!" ++ String.mk [verb] ++ "(" ++ a.typeName ++ "=" ++ a.fmtV ++ ")"

/-- The rendering of one operand by the directive `%verb`, for the verbs
`v`, `d` and `s` without flags or width. -/
def Arg.render {fl : GoFloat} (verb : Char) (a : Arg fl) : String :=
  if verb = 'v' then a.fmtV
  else if verb = 'd' then
    match a with
    | .uint64 v => fmtUint v
    | .int64 v => fmtInt v
    | a => a.badVerb verb
  else if verb = 's' then
    match a with
    | .string v => v
    | a => a.badVerb verb
  else a.badVerb verb

/-- What `fmt` appends for operands no directive consumed. -/
def extraOperands {fl : GoFloat} (args : List (Arg fl)) : List Char :=
  match args with
  | [] => []
  | _ :: _ =>
    ("%!(EXTRA " ++ ", ".intercalate (args.map fun a => a.typeName ++ "=" ++ a.fmtV) ++ ")").data

/-- The scan of a format by `fmt.Sprintf`: text is copied, `%%` is a percent
sign, and each directive consumes the next operand. -/
def sprintfAux {fl : GoFloat} : List Char → List (Arg fl) → List Char
  | [], args => extraOperands args
  | c :: cs, args =>
    if c = '%' then
      match cs with
      | [] => "%!(NOVERB)".data ++ extraOperands args
      | verb :: rest =>
        if verb = '%' then '%' :: sprintfAux rest args
        else
          match args with
          | [] => ("%!" ++ String.mk [verb] ++ "(MISSING)").data ++ sprintfAux rest args
          | a :: as => (a.render verb).data ++ sprintfAux rest as
    else c :: sprintfAux cs args

/-- The function `fmt.Sprintf`, for formats whose directives are `%v`, `%d`
and `%s` without flags or width. -/
def Sprintf {fl : GoFloat} (format : String) (args : List (Arg fl)) : String :=
  String.mk (sprintfAux format.data args)

/-! ## The record and its formatter -/

/-- The struct `CitrixEndpointMetric`; the defaults are Go's zero values, so
`{}` is `CitrixEndpointMetric{}`. -/
structure CitrixEndpointMetric (fl : GoFloat) where
  AvgBeaconLatency : fl.F64 := fl.zero
  AvgPrivilegedTime : fl.F64 := fl.zero
  AvgProcessorTime : fl.F64 := fl.zero
  AvgThroughputBytesRcvd : fl.F64 := fl.zero
  AvgThroughputBytesSent : fl.F64 := fl.zero
  AvgUserTime : fl.F64 := fl.zero
  City : String := ""
  ClientTimestamp : Nat := 0
  Country : String := ""
  EndpointIP : String := ""
  GpuAvgUsage : fl.F64 := fl.zero
  GpuMaxUsage : Nat := 0
  ISP : String := ""
  LatencyUnit : String := ""
  LinkSpeed : Nat := 0
  MaxPrivilegedTime : Nat := 0
  MaxProcessorTime : Nat := 0
  MaxThroughputBytesRcvd : Nat := 0
  MaxThroughputBytesSent : Nat := 0
  MaxUserTime : Nat := 0
  NetworkInterfaceType : String := ""
  RamAvgUsage : fl.F64 := fl.zero
  RamMaxUsage : Nat := 0
  SessionID : Int := 0
  SignalStrength : Nat := 0
  SpeedUnit : String := ""
  Timestamp : Time := Time.zero
  SessionGUID : String := ""

/-- The variable `output` of `PrintMetricKeyValue`: the formatted record. -/
def metricLine {fl : GoFloat} (metric : CitrixEndpointMetric fl) : String :=
  Sprintf "AvgBeaconLatency=%v AvgThroughputBytesRcvd=%v AvgThroughputBytesSent=%v ClientTimestamp=%v GpuAvgUsage=%v GpuMaxUsage=%v LinkSpeed=%v MaxPrivilegedTime=%v MaxProcessorTime=%v MaxThroughputBytesRcvd=%v MaxThroughputBytesSent=%v MaxUserTime=%v NetworkInterfaceType=%s RamMaxUsage=%v SessionGUID=%s SignalStrength=%v"
    [.float64 metric.AvgBeaconLatency,
     .float64 metric.AvgThroughputBytesRcvd,
     .float64 metric.AvgThroughputBytesSent,
     .uint64 metric.ClientTimestamp,
     .float64 metric.GpuAvgUsage,
     .uint64 metric.GpuMaxUsage,
     .uint64 metric.LinkSpeed,
     .uint64 metric.MaxPrivilegedTime,
     .uint64 metric.MaxProcessorTime,
     .uint64 metric.MaxThroughputBytesRcvd,
     .uint64 metric.MaxThroughputBytesSent,
     .uint64 metric.MaxUserTime,
     .string metric.NetworkInterfaceType,
     .uint64 metric.RamMaxUsage,
     .string metric.SessionGUID,
     .uint64 metric.SignalStrength]

/-- The function `PrintMetricKeyValue`: the text it writes to standard
output, `fmt.Println(output)`. -/
def PrintMetricKeyValue {fl : GoFloat} (metric : CitrixEndpointMetric fl) : String :=
  metricLine metric ++ "\n"

/-! ## The merge loop of `main` -/

/-- The type `registry.SessionGUIDMapping`, a Go `map[string]string`: `none`
is the nil map, `some kvs` a map with the entries `kvs`. -/
abbrev SessionGUIDMapping := Option (List (String × String))

/-- The lookup `guid, exists := sessionGUIDs[key]`; a nil map has no key. -/
def SessionGUIDMapping.get (m : SessionGUIDMapping) (key : String) : Option String :=
  match m with
  | none => none
  | some kvs => kvs.lookup key

/-- The body of the merge loop of `main` for the record `metrics[i]`. -/
def mergeBody {fl : GoFloat} (sessionGUIDs : SessionGUIDMapping)
    (metric : CitrixEndpointMetric fl) : CitrixEndpointMetric fl :=
  let sessionIDStr : String := Sprintf "%d" [(Arg.int64 metric.SessionID : Arg fl)]
  if metric.SessionID ≠ 0 then
    match sessionGUIDs.get sessionIDStr with
    | some guid => { metric with SessionGUID := guid }
    | none => { metric with SessionGUID := "No GUID found for SessionID" }
  else { metric with SessionGUID := "No SessionID available" }

/-- The loop `for i := range metrics` of `main`, with `k` iterations left
starting at index `i`; each iteration updates `metrics[i]` in place. -/
def mergeLoop {fl : GoFloat} (sessionGUIDs : SessionGUIDMapping) :
    Nat → Nat → List (CitrixEndpointMetric fl) → List (CitrixEndpointMetric fl)
  | 0, _, metrics => metrics
  | k + 1, i, metrics =>
    mergeLoop sessionGUIDs k (i + 1) (metrics.modify (mergeBody sessionGUIDs) i)

/-- The merge stage of `main`: the loop run over all of `metrics`. -/
def mergeStage {fl : GoFloat} (sessionGUIDs : SessionGUIDMapping)
    (metrics : List (CitrixEndpointMetric fl)) : List (CitrixEndpointMetric fl) :=
  mergeLoop sessionGUIDs metrics.length 0 metrics

/-! ## The print loop of `main` -/

/-- The loop `for _, metric := range metrics` of `main` that calls
`PrintMetricKeyValue`, `out` being the text written to standard output so far. -/
def printLoop {fl : GoFloat} : List (CitrixEndpointMetric fl) → String → String
  | [], out => out
  | metric :: rest, out => printLoop rest (out ++ PrintMetricKeyValue metric)

/-- What `main` writes to standard output once the records are acquired and
the mapping is read: the merge loop, then the print loop. -/
def mainOutput {fl : GoFloat} (sessionGUIDs : SessionGUIDMapping)
    (metrics : List (CitrixEndpointMetric fl)) : String :=
  printLoop (mergeStage sessionGUIDs metrics) ""

/-! ## The acquisition: `GetCitrixMetrics` -/

/-- The method `(*ole.VARIANT).ToString()`: the text of a string variant, the
empty string for any other variant. -/
def Value.ToString {fl : GoFloat} : Value fl → String
  | .string v => v
  | _ => ""

/-- The COM calls `GetCitrixMetrics` makes, as an oracle: each call returns a
value or an error, given by its message. Handles are numbers; the handle a
call works on is its first argument. -/
structure Provider (fl : GoFloat) where
  /-- The call `ole.CoInitializeEx(0, ole.COINIT_MULTITHREADED)`. -/
  CoInitializeEx : Option String
  /-- The call `oleutil.CreateObject("WbemScripting.SWbemLocator")`. -/
  CreateObject : Except String Nat
  /-- The call `unknown.QueryInterface(ole.IID_IDispatch)`. -/
  QueryInterface : Nat → Except String Nat
  /-- The call `oleutil.CallMethod(wmi, "ConnectServer", nil, "ROOT\\Citrix\\EUEM")`. -/
  ConnectServer : Nat → Except String Nat
  /-- The call `oleutil.CallMethod(service, "ExecQuery", ...)`. -/
  ExecQuery : Nat → Except String Nat
  /-- The call `oleutil.GetProperty(results, "Count")`, with `countVar.Val`. -/
  Count : Nat → Except String Int
  /-- The call `oleutil.CallMethod(results, "ItemIndex", i)`. -/
  ItemIndex : Nat → Nat → Except String Nat
  /-- The call `oleutil.GetProperty(item, name)`. -/
  GetProperty : Nat → String → Except String (Value fl)

/-- What `GetCitrixMetrics` obtains and has to give back: the OLE
initialisation and the COM handles. -/
inductive Resource where
  | ole
  | locator (h : Nat)
  | dispatch (h : Nat)
  | service (h : Nat)
  | results (h : Nat)
  | item (i : Nat) (h : Nat)
deriving DecidableEq, Repr

/-- The handles of one run of `GetCitrixMetrics`: what was obtained, in
order; the pending `defer` statements, the latest first; what was released,
in order. -/
structure Handles where
  acquired : List Resource := []
  deferred : List Resource := []
  released : List Resource := []
deriving DecidableEq, Repr

/-- A call has returned the resource `r`. -/
def Handles.obtain (s : Handles) (r : Resource) : Handles :=
  { s with acquired := s.acquired ++ [r] }

/-- The statement `defer r.Release()` (`defer ole.CoUninitialize()` for the
OLE initialisation). -/
def Handles.defer (s : Handles) (r : Resource) : Handles :=
  { s with deferred := r :: s.deferred }

/-- The function returns: the deferred calls run, the latest first. -/
def Handles.runDeferred (s : Handles) : Handles :=
  { s with released := s.released ++ s.deferred, deferred := [] }

/-- The result of `GetCitrixMetrics`, Go's `([]CitrixEndpointMetric, error)`
(a nil slice is the empty list, an error is its message), with the handles
of the run once the function has returned. -/
structure Outcome (fl : GoFloat) where
  metrics : List (CitrixEndpointMetric fl)
  err : Option String
  handles : Handles

/-- A `return metrics, err` of `GetCitrixMetrics`. -/
def Outcome.ret {fl : GoFloat} (s : Handles) (metrics : List (CitrixEndpointMetric fl))
    (err : Option String) : Outcome fl :=
  { metrics := metrics, err := err, handles := s.runDeferred }

/-- The function `fmt.Errorf`: an error whose message is the formatted text.
An error operand is rendered by `%v` as its message, so it is passed as that
string; an `int` operand is rendered by `%d` as an `int64` is. -/
def Errorf {fl : GoFloat} (format : String) (args : List (Arg fl)) : String :=
  Sprintf format args

/-- The statement `if val, err := oleutil.GetProperty(item, name); err == nil
{ ... }`: `read` is the result of the call, `assign` the body. -/
def readProperty {fl : GoFloat} (read : Except String (Value fl))
    (assign : Value fl → CitrixEndpointMetric fl → CitrixEndpointMetric fl)
    (metric : CitrixEndpointMetric fl) : CitrixEndpointMetric fl :=
  match read with
  | .ok val => assign val metric
  | .error _ => metric

/-- The body of the loop of `GetCitrixMetrics` that builds the record of one
item, `getProperty name` being `oleutil.GetProperty(item, name)`. -/
def buildMetric {fl : GoFloat} (getProperty : String → Except String (Value fl)) :
    CitrixEndpointMetric fl :=
  let metric : CitrixEndpointMetric fl := {}
  let metric := readProperty (getProperty "AvgBeaconLatency")
    (fun val metric => { metric with AvgBeaconLatency := convertToFloat64 (some val) }) metric
  let metric := readProperty (getProperty "AvgPrivilegedTime")
    (fun val metric => { metric with AvgPrivilegedTime := convertToFloat64 (some val) }) metric
  let metric := readProperty (getProperty "AvgProcessorTime")
    (fun val metric => { metric with AvgProcessorTime := convertToFloat64 (some val) }) metric
  let metric := readProperty (getProperty "AvgThroughputBytesRcvd")
    (fun val metric => { metric with AvgThroughputBytesRcvd := convertToFloat64 (some val) }) metric
  let metric := readProperty (getProperty "AvgThroughputBytesSent")
    (fun val metric => { metric with AvgThroughputBytesSent := convertToFloat64 (some val) }) metric
  let metric := readProperty (getProperty "AvgUserTime")
    (fun val metric => { metric with AvgUserTime := convertToFloat64 (some val) }) metric
  let metric := readProperty (getProperty "City")
    (fun val metric => { metric with City := val.ToString }) metric
  let metric := readProperty (getProperty "ClientTimestamp")
    (fun val metric => { metric with ClientTimestamp := convertToUint64 (some val) }) metric
  let metric := readProperty (getProperty "Country")
    (fun val metric => { metric with Country := val.ToString }) metric
  let metric := readProperty (getProperty "EndpointIP")
    (fun val metric => { metric with EndpointIP := val.ToString }) metric
  let metric := readProperty (getProperty "GpuAvgUsage")
    (fun val metric => { metric with GpuAvgUsage := convertToFloat64 (some val) }) metric
  let metric := readProperty (getProperty "GpuMaxUsage")
    (fun val metric => { metric with GpuMaxUsage := convertToUint64 (some val) }) metric
  let metric := readProperty (getProperty "ISP")
    (fun val metric => { metric with ISP := val.ToString }) metric
  let metric := readProperty (getProperty "LatencyUnit")
    (fun val metric => { metric with LatencyUnit := val.ToString }) metric
  let metric := readProperty (getProperty "LinkSpeed")
    (fun val metric => { metric with LinkSpeed := convertToUint64 (some val) }) metric
  let metric := readProperty (getProperty "MaxPrivilegedTime")
    (fun val metric => { metric with MaxPrivilegedTime := convertToUint64 (some val) }) metric
  let metric := readProperty (getProperty "MaxProcessorTime")
    (fun val metric => { metric with MaxProcessorTime := convertToUint64 (some val) }) metric
  let metric := readProperty (getProperty "MaxThroughputBytesRcvd")
    (fun val metric => { metric with MaxThroughputBytesRcvd := convertToUint64 (some val) }) metric
  let metric := readProperty (getProperty "MaxThroughputBytesSent")
    (fun val metric => { metric with MaxThroughputBytesSent := convertToUint64 (some val) }) metric
  let metric := readProperty (getProperty "MaxUserTime")
    (fun val metric => { metric with MaxUserTime := convertToUint64 (some val) }) metric
  let metric := readProperty (getProperty "NetworkInterfaceType")
    (fun val metric => { metric with NetworkInterfaceType := val.ToString }) metric
  let metric := readProperty (getProperty "RamAvgUsage")
    (fun val metric => { metric with RamAvgUsage := convertToFloat64 (some val) }) metric
  let metric := readProperty (getProperty "RamMaxUsage")
    (fun val metric => { metric with RamMaxUsage := convertToUint64 (some val) }) metric
  let metric := readProperty (getProperty "SessionID")
    (fun val metric => { metric with SessionID := convertToInt64 (some val) }) metric
  let metric := readProperty (getProperty "SignalStrength")
    (fun val metric => { metric with SignalStrength := convertToUint64 (some val) }) metric
  let metric := readProperty (getProperty "SpeedUnit")
    (fun val metric => { metric with SpeedUnit := val.ToString }) metric
  let metric := readProperty (getProperty "Timestamp")
    (fun val metric =>
      match val with
      | .time date => { metric with Timestamp := date }
      | _ => metric) metric
  metric

/-- The loop `for i := 0; i < count; i++` of `GetCitrixMetrics`, with `k`
iterations left starting at index `i`. -/
def itemLoop {fl : GoFloat} (p : Provider fl) (results : Nat) :
    Nat → Nat → Handles → List (CitrixEndpointMetric fl) → Outcome fl
  | 0, _, s, metrics => Outcome.ret s metrics none
  | k + 1, i, s, metrics =>
    match p.ItemIndex results i with
    | .error err =>
      Outcome.ret s []
        (some (Errorf "failed to get result item %d: %v" [(Arg.int64 i : Arg fl), .string err]))
    | .ok item =>
      let s := (s.obtain (.item i item)).defer (.item i item)
      let metric := buildMetric (p.GetProperty item)
      itemLoop p results k (i + 1) s (metrics ++ [metric])

/-- The function `GetCitrixMetrics`. -/
def GetCitrixMetrics {fl : GoFloat} (p : Provider fl) : Outcome fl :=
  let s : Handles := {}
  match p.CoInitializeEx with
  | some err =>
    Outcome.ret s [] (some (Errorf "failed to initialize OLE: %v" [(Arg.string err : Arg fl)]))
  | none =>
    let s := (s.obtain .ole).defer .ole
    match p.CreateObject with
    | .error err =>
      Outcome.ret s []
        (some (Errorf "failed to create WMI locator object: %v" [(Arg.string err : Arg fl)]))
    | .ok unknown =>
      let s := (s.obtain (.locator unknown)).defer (.locator unknown)
      match p.QueryInterface unknown with
      | .error err =>
        Outcome.ret s []
          (some (Errorf "failed to get WMI interface: %v" [(Arg.string err : Arg fl)]))
      | .ok wmi =>
        let s := (s.obtain (.dispatch wmi)).defer (.dispatch wmi)
        match p.ConnectServer wmi with
        | .error err =>
          Outcome.ret s []
            (some (Errorf "failed to connect to WMI service: %v" [(Arg.string err : Arg fl)]))
        | .ok service =>
          let s := (s.obtain (.service service)).defer (.service service)
          match p.ExecQuery service with
          | .error err =>
            Outcome.ret s []
              (some (Errorf "failed to execute WMI query: %v" [(Arg.string err : Arg fl)]))
          | .ok results =>
            let s := (s.obtain (.results results)).defer (.results results)
            match p.Count results with
            | .error err =>
              Outcome.ret s []
                (some (Errorf "failed to get result count: %v" [(Arg.string err : Arg fl)]))
            | .ok count => itemLoop p results count.toNat 0 s []

/-! ## The conversion of an integer to `float64` -/

/-- The number of low bits a magnitude has beyond 53 significant bits; the
first argument bounds the number of halvings, `m` itself is always enough. -/
def excessBits : Nat → Nat → Nat
  | 0, _ => 0
  | fuel + 1, m => if m < 2 ^ 53 then 0 else excessBits fuel (m / 2) + 1

/-- Go's conversion `float64(v)` of an integer of at most 64 bits, as the
integer the resulting float denotes: `v` rounded to 53 significant bits, to
the nearest value and to the even one on a tie. -/
def roundToFloat64 (v : Int) : Int :=
  let m := v.natAbs
  let e := excessBits m m
  let q := m / 2 ^ e
  let r := m % 2 ^ e
  let q' := if 2 * r > 2 ^ e ∨ (2 * r = 2 ^ e ∧ q % 2 = 1) then q + 1 else q
  if v < 0 then -((q' * 2 ^ e : Nat) : Int) else ((q' * 2 ^ e : Nat) : Int)

/-! ## The values of a `float64` -/

/-- A value of Go's `float64`: an infinity, a not-a-number, or the finite
value `(-1)^neg * m * 2^e`, written with `m` odd, or with `m = 0` and `e = 0`
for a zero. -/
inductive Binary64 where
  | finite (neg : Bool) (m : Nat) (e : Int)
  | inf (neg : Bool)
  | nan
deriving DecidableEq, Repr

/-- The halvings that make a mantissa odd; the first argument bounds their
number, `m` itself is always enough. -/
def stripZeros : Nat → Nat → Int → Nat × Int
  | 0, m, e => (m, e)
  | fuel + 1, m, e => if m % 2 = 0 ∧ m ≠ 0 then stripZeros fuel (m / 2) (e + 1) else (m, e)

/-- The finite value `(-1)^neg * m * 2^e` in the form `Binary64` writes it. -/
def Binary64.ofScaled (neg : Bool) (m : Nat) (e : Int) : Binary64 :=
  if m = 0 then .finite neg 0 0
  else .finite neg (stripZeros m m e).1 (stripZeros m m e).2

/-- The number of bits of `m` added to `acc`; the first argument bounds their
number, `m` itself is always enough. -/
def bitLength : Nat → Nat → Nat → Nat
  | 0, _, acc => acc
  | fuel + 1, m, acc => if m = 0 then acc else bitLength fuel (m / 2) (acc + 1)

/-- The `float64` nearest to the positive fraction `num / den` with the sign
`neg`, the even one of two nearest, and whether the fraction is beyond the
finite range. The fraction lies between `2^k` and `2^(k+1)`; the last of its
53 significant bits has the exponent `k - 52`, or `-1074` if that is less;
the value is an infinity when the rounded fraction reaches `2^1024`. -/
def roundBinary64 (neg : Bool) (num den : Nat) : Binary64 × Bool :=
  let k0 : Int := (bitLength num num 0 : Int) - (bitLength den den 0 : Int)
  let below : Bool :=
    if k0 ≥ 0 then decide (num < den * 2 ^ k0.toNat) else decide (num * 2 ^ (-k0).toNat < den)
  let k : Int := if below then k0 - 1 else k0
  let e : Int := max (k - 52) (-1074)
  let n := if e ≥ 0 then num else num * 2 ^ (-e).toNat
  let d := if e ≥ 0 then den * 2 ^ e.toNat else den
  let q := n / d
  let r := n % d
  let m := if 2 * r > d ∨ (2 * r = d ∧ q % 2 = 1) then q + 1 else q
  if (bitLength m m 0 : Int) + e > 1024 then (.inf neg, true)
  else (Binary64.ofScaled neg m e, false)

/-- Go's conversion `float64(v)` of an integer of at most 64 bits. -/
def Binary64.ofInt (v : Int) : Binary64 :=
  Binary64.ofScaled (decide (v < 0)) (roundToFloat64 v).natAbs 0

/-- The comparison `v >= 0`. -/
def Binary64.geZero : Binary64 → Bool
  | .finite neg m _ => !neg || m == 0
  | .inf neg => !neg
  | .nan => false

/-- The function `commonPrefixLenIgnoreCase(s, prefix)`; its second argument
is in lower case, and a character of `s` between `A` and `Z` is moved to
lower case before it is compared (`Char.toLower`). -/
def commonPrefixLenIgnoreCase : List Char → List Char → Nat
  | c :: s, d :: pre =>
    if c.toLower = d then
      commonPrefixLenIgnoreCase s pre + 1
    else 0
  | _, _ => 0

/-- The arm of `special` that reads an infinity after `nsign` characters of
sign. -/
def specialInf (neg : Bool) (nsign : Nat) (s : List Char) : Option (Binary64 × Nat) :=
  let n := commonPrefixLenIgnoreCase s "infinity".data
  let n := if 3 < n ∧ n < 8 then 3 else n
  if n = 3 ∨ n = 8 then some (.inf neg, nsign + n) else none

/-- The function `special`: the value and the number of characters read when
a spelling of an infinity or of a not-a-number starts the text. -/
def special (s : List Char) : Option (Binary64 × Nat) :=
  match s with
  | [] => none
  | c :: t =>
    if c = '+' ∨ c = '-' then specialInf (decide (c = '-')) 1 t
    else if c = 'i' ∨ c = 'I' then specialInf false 0 s
    else if c = 'n' ∨ c = 'N' then
      if commonPrefixLenIgnoreCase s "nan".data = 3 then some (.nan, 3) else none
    else none

/-- The loop of `underscoreOK`; `saw` is the kind of the last character:
`^` for the beginning of the number, `0` for a digit or a base prefix, `_` for
an underscore, `!` for anything else. -/
def underscoreLoop (hex : Bool) : List Char → Char → Bool
  | [], saw => saw ≠ '_'
  | c :: cs, saw =>
    if (48 ≤ c.toNat ∧ c.toNat ≤ 57) ∨
        (hex = true ∧ 97 ≤ lower c.toNat ∧ lower c.toNat ≤ 102) then
      underscoreLoop hex cs '0'
    else if c = '_' then
      if saw ≠ '0' then false else underscoreLoop hex cs '_'
    else if saw = '_' then false
    else underscoreLoop hex cs '!'

/-- The function `underscoreOK`: whether every underscore of `s` stands
between two digits, or between a base prefix and a digit. -/
def underscoreOK (s : List Char) : Bool :=
  let s1 := match s with
    | c :: t => if c = '-' ∨ c = '+' then t else s
    | [] => s
  match s1 with
  | c0 :: c1 :: t =>
    if c0 = '0' ∧ (lower c1.toNat = 98 ∨ lower c1.toNat = 111 ∨ lower c1.toNat = 120) then
      underscoreLoop (decide (lower c1.toNat = 120)) t '0'
    else underscoreLoop false s1 '^'
  | _ => underscoreLoop false s1 '^'

/-- The variables of the mantissa loop of `readFloat`. -/
structure Mantissa where
  mantissa : Nat := 0
  nd : Nat := 0
  dp : Int := 0
  sawdot : Bool := false
  sawdigits : Bool := false
  underscores : Bool := false
deriving DecidableEq, Repr

/-- The mantissa loop of `readFloat` in base `base` over the characters left
to read; it returns its variables and the characters it did not read. -/
def readMantissa (base : Nat) : List Char → Mantissa → Mantissa × List Char
  | [], st => (st, [])
  | c :: cs, st =>
    if c = '_' then readMantissa base cs { st with underscores := true }
    else if c = '.' then
      if st.sawdot = true then (st, c :: cs)
      else readMantissa base cs { st with sawdot := true, dp := st.nd }
    else if 48 ≤ c.toNat ∧ c.toNat ≤ 57 then
      if c = '0' ∧ st.nd = 0 then
        readMantissa base cs { st with sawdigits := true, dp := st.dp - 1 }
      else
        readMantissa base cs
          { st with sawdigits := true, nd := st.nd + 1,
                    mantissa := st.mantissa * base + (c.toNat - 48) }
    else if base = 16 ∧ 97 ≤ lower c.toNat ∧ lower c.toNat ≤ 102 then
      readMantissa base cs
        { st with sawdigits := true, nd := st.nd + 1,
                  mantissa := st.mantissa * 16 + (lower c.toNat - 97 + 10) }
    else (st, c :: cs)

/-- The digit loop of the exponent of `readFloat`: the exponent read so far,
whether an underscore was met, and the characters it did not read. -/
def readExponent : List Char → Nat → Bool → Nat × Bool × List Char
  | [], e, u => (e, u, [])
  | c :: cs, e, u =>
    if (48 ≤ c.toNat ∧ c.toNat ≤ 57) ∨ c = '_' then
      if c = '_' then readExponent cs e true
      else readExponent cs (if e < 10000 then e * 10 + (c.toNat - 48) else e) u
    else (e, u, c :: cs)

/-- The exponent stage of `readFloat` at the characters `s` the mantissa loop
left: the signed exponent, whether an underscore was met so far, and the
characters not read; `none` where `readFloat` returns with `ok == false`. -/
def readFloatExponent (hex : Bool) (s : List Char) (u : Bool) :
    Option (Int × Bool × List Char) :=
  match s with
  | c :: s1 =>
    if lower c.toNat = (if hex then 112 else 101) then
      match s1 with
      | [] => none
      | d :: s2 =>
        let esign : Int := if d = '-' then -1 else 1
        let s3 := if d = '+' ∨ d = '-' then s2 else s1
        match s3 with
        | [] => none
        | f :: _ =>
          if f.toNat < 48 ∨ f.toNat > 57 then none
          else
            let r := readExponent s3 0 u
            some ((r.1 : Int) * esign, r.2.1, r.2.2)
    else if hex then none
    else some (0, u, s)
  | [] => if hex then none else some (0, u, [])

/-- The results of `readFloat` when it returns with `ok == true`; `rest` is
the text from the index `i` on. -/
structure ReadFloat where
  mantissa : Nat
  exp : Int
  neg : Bool
  hex : Bool
  rest : List Char
deriving DecidableEq, Repr

/-- The function `readFloat`; `none` where it returns with `ok == false`. The
mantissa is the whole of its digits and `exp` is counted from its last digit,
where the source keeps 19 digits (16 in base 16) and notes that it dropped
some. -/
def readFloat (s : List Char) : Option ReadFloat :=
  match s with
  | [] => none
  | c :: t =>
    let neg := decide (c = '-')
    let s1 := if c = '+' ∨ c = '-' then t else s
    let hex : Bool :=
      match s1 with
      | c0 :: c1 :: _ :: _ => decide (c0 = '0' ∧ lower c1.toNat = 120)
      | _ => false
    let s2 := if hex then s1.drop 2 else s1
    let r := readMantissa (if hex then 16 else 10) s2 {}
    let st := r.1
    if st.sawdigits = false then none
    else
      let dp : Int := if st.sawdot then st.dp else st.nd
      let dp : Int := if hex then dp * 4 else dp
      let ndMant : Int := if hex then (st.nd : Int) * 4 else st.nd
      match readFloatExponent hex r.2 st.underscores with
      | none => none
      | some (e, underscores, rest) =>
        let exp : Int := if st.mantissa ≠ 0 then dp + e - ndMant else 0
        if underscores = true ∧ underscoreOK (s.take (s.length - rest.length)) = false then none
        else some ⟨st.mantissa, exp, neg, hex, rest⟩

/-- The function `atof64`: the value, the number of characters read and the
error. On a syntax error the source's count is where it stopped; `ParseFloat`
does not look at it then, and it is 0 here. -/
def atof64 (s : List Char) : Binary64 × Nat × Option NumError :=
  match special s with
  | some (v, n) => (v, n, none)
  | none =>
    match readFloat s with
    | none => (.finite false 0 0, 0, some .malformed)
    | some r =>
      let n := s.length - r.rest.length
      if r.mantissa = 0 then (.finite r.neg 0 0, n, none)
      else
        let b : Nat := if r.hex then 2 else 10
        let f :=
          if r.exp ≥ 0 then roundBinary64 r.neg (r.mantissa * b ^ r.exp.toNat) 1
          else roundBinary64 r.neg r.mantissa (b ^ (-r.exp).toNat)
        (f.1, n, if f.2 then some .outOfRange else none)

/-- The function `strconv.ParseFloat(s, 64)`; the result is Go's
`(float64, error)`. -/
def ParseFloat (s : String) : Binary64 × Option NumError :=
  match atof64 s.data with
  | (f, n, err) =>
    if n ≠ s.data.length ∧ err ≠ some .malformed then (.finite false 0 0, some .malformed)
    else (f, err)

/-- Floats restricted to integer values, for evaluating the definitions on
concrete records of small integers. The instance is Go's on the integers
below `10^6` in magnitude and their plain decimal texts: beyond them `%v`
prints an exponent, `strconv.ParseFloat` reads more texts than
`strconv.ParseInt` (see `ParseFloat`), and the conversion of a float that an
integer type cannot hold is implementation-dependent, where this instance
reduces it modulo `2^64`. -/
def integralFloat : GoFloat where
  F64 := Int
  F32 := Int
  zero := 0
  ofInt := roundToFloat64
  ofF32 := id
  geZero := fun v => decide (0 ≤ v)
  geZero32 := fun v => decide (0 ≤ v)
  truncU64 := toUint64
  truncU64of32 := toUint64
  truncI64 := toInt64
  truncI64of32 := toInt64
  parseFloat := fun s =>
    match ParseInt s 10 64 with
    | (v, none) => some v
    | (_, some _) => none
  format := fmtInt

/-- A record with no session, for evaluating the definitions. -/
def noSessionRecord : CitrixEndpointMetric integralFloat := { LinkSpeed := 100 }

/-- A record of session 5, for evaluating the definitions. -/
def sessionFiveRecord : CitrixEndpointMetric integralFloat :=
  { SessionID := 5, AvgBeaconLatency := (12 : Int), ClientTimestamp := 1700000000, LinkSpeed := 1000 }

/-- A record of session -7, for evaluating the definitions. -/
def sessionMinusSevenRecord : CitrixEndpointMetric integralFloat :=
  { SessionID := -7, SessionGUID := "stale" }

/-- A record that differs from `sessionFiveRecord` in each of the 12 omitted
fields and in none of the emitted ones. -/
def otherOmittedRecord : CitrixEndpointMetric integralFloat :=
  { sessionFiveRecord with
    AvgPrivilegedTime := (1 : Int), AvgProcessorTime := (2 : Int), AvgUserTime := (3 : Int),
    City := "Rome", Country := "IT", EndpointIP := "10.0.0.1", ISP := "isp",
    LatencyUnit := "ms", RamAvgUsage := (4 : Int), SessionID := 9, SpeedUnit := "Mbps",
    Timestamp := ⟨1000⟩ }

/-- Row A of the end-to-end example: session 5, every numeric field non-zero. -/
def rowA : CitrixEndpointMetric integralFloat :=
  { AvgBeaconLatency := (12 : Int), AvgPrivilegedTime := (3 : Int), AvgProcessorTime := (7 : Int),
    AvgThroughputBytesRcvd := (2048 : Int), AvgThroughputBytesSent := (1024 : Int),
    AvgUserTime := (4 : Int), City := "Rome", ClientTimestamp := 1700000000, Country := "IT",
    EndpointIP := "10.0.0.1", GpuAvgUsage := (30 : Int), GpuMaxUsage := 55, ISP := "isp",
    LatencyUnit := "ms", LinkSpeed := 1000, MaxPrivilegedTime := 9, MaxProcessorTime := 21,
    MaxThroughputBytesRcvd := 4096, MaxThroughputBytesSent := 3072, MaxUserTime := 12,
    NetworkInterfaceType := "WiFi", RamAvgUsage := (40 : Int), RamMaxUsage := 70,
    SessionID := 5, SignalStrength := 80, SpeedUnit := "Mbps", Timestamp := ⟨1000⟩ }

/-- Row B of the end-to-end example: no session. -/
def rowB : CitrixEndpointMetric integralFloat := { SessionID := 0, LinkSpeed := 100 }

/-- A record whose NetworkInterfaceType holds a line break. -/
def brokenLineRecord : CitrixEndpointMetric integralFloat :=
  { SessionID := 5, NetworkInterfaceType := "Wi\nFi" }

/-- A provider with two rows: the item of index `i` has handle `10 + i`;
the first row is of session 5, the second has no session; the properties
City and Country cannot be read, a few others are supplied, in mixed
representations. -/
def twoRowProvider : Provider integralFloat where
  CoInitializeEx := none
  CreateObject := .ok 1
  QueryInterface := fun _ => .ok 2
  ConnectServer := fun _ => .ok 3
  ExecQuery := fun _ => .ok 4
  Count := fun _ => .ok 2
  ItemIndex := fun _ i => .ok (10 + i)
  GetProperty := fun item name =>
    if name = "SessionID" then .ok (.int32 (if item = 10 then 5 else 0))
    else if name = "LinkSpeed" then .ok (.uint32 1000)
    else if name = "NetworkInterfaceType" then .ok (.string "WiFi")
    else if name = "AvgBeaconLatency" then .ok (.string "12")
    else if name = "ClientTimestamp" then .ok (.string "1700000000")
    else if name = "SignalStrength" then .ok (.int16 (-3))
    else if name = "Timestamp" then
      (if item = 10 then .ok (.time ⟨1000⟩) else .ok (.string "2024-01-01"))
    else if name = "City" then .error "property not found"
    else if name = "Country" then .error "property not found"
    else .ok .null

/-- The provider `twoRowProvider` with a count of 3 and a fetch that fails at
index 1, after the item of index 0 was fetched. -/
def failingItemProvider : Provider integralFloat :=
  { twoRowProvider with
    Count := fun _ => .ok 3
    ItemIndex := fun _ i => if i = 1 then .error "RPC failed" else .ok (10 + i) }

/-- The provider `twoRowProvider` on a host where OLE cannot be initialised. -/
def unavailableProvider : Provider integralFloat :=
  { twoRowProvider with CoInitializeEx := some "OLE unavailable" }

/-- The numeric value of a variant that holds an integer of one of the eight
representations the coercion helpers recognise. -/
def Value.intValue? {fl : GoFloat} : Value fl → Option Int
  | .int8 v => some v
  | .int16 v => some v
  | .int32 v => some v
  | .int64 v => some v
  | .uint8 v => some (v : Int)
  | .uint16 v => some (v : Int)
  | .uint32 v => some (v : Int)
  | .uint64 v => some (v : Int)
  | _ => none

/-- The representations the coercion helpers recognise: the eight integer
kinds, `float32`, `float64` and text. -/
def Value.recognised {fl : GoFloat} : Value fl → Bool
  | .int8 _ => true
  | .int16 _ => true
  | .int32 _ => true
  | .int64 _ => true
  | .uint8 _ => true
  | .uint16 _ => true
  | .uint32 _ => true
  | .uint64 _ => true
  | .float32 _ => true
  | .float64 _ => true
  | .string _ => true
  | _ => false

/-- The tokens of a line: the pieces between its spaces. -/
def lineTokens (line : String) : List String :=
  (line.data.splitOn ' ').map String.mk

/-- The value of a run of decimal digits read after the value `acc`. -/
def decimalFrom (acc : Nat) (cs : List Char) : Nat :=
  cs.foldl (fun n c => n * 10 + (c.toNat - 48)) acc

/-- The number a run of decimal digits denotes. -/
def decimalValue (cs : List Char) : Nat := decimalFrom 0 cs

/-- A non-empty run of ASCII decimal digits. -/
def isDecimal (cs : List Char) : Bool := !cs.isEmpty && cs.all Char.isDigit

/-- Signed decimal text by the spec's words: an optional single sign (`+` or
`-`) followed by one or more ASCII decimal digits, with the value it denotes;
`none` for any other text. -/
def signedDecimal? (cs : List Char) : Option Int :=
  match cs with
  | [] => none
  | c :: ds =>
    if c = '+' then (if isDecimal ds then some (decimalValue ds : Int) else none)
    else if c = '-' then (if isDecimal ds then some (-(decimalValue ds : Int)) else none)
    else if isDecimal (c :: ds) then some (decimalValue (c :: ds) : Int)
    else none

/-- The SessionGUID of a record after the merge stage, by the spec's words:
the sentinel for SessionID 0, else the value mapped to the decimal text of
the SessionID, else the not-found sentinel. -/
def mergedGUID (g : SessionGUIDMapping) (id : Int) : String :=
  if id = 0 then "No SessionID available"
  else (g.get (fmtInt id)).getD "No GUID found for SessionID"

/-- The newline-terminated lines of a text: its pieces between line breaks,
without what follows the last line break. -/
def newlineTerminatedLines (out : String) : List String :=
  ((out.data.splitOn '\n').dropLast).map String.mk

/-- The value a field takes from the read of its property: the coercion of
the value read, or the default of the field's type when the read fails. -/
def readOr {fl : GoFloat} {α : Type} (read : Except String (Value fl))
    (coerce : Value fl → α) (dflt : α) : α :=
  match read with
  | .ok val => coerce val
  | .error _ => dflt

/-- The timestamp a variant gives: its value when it is a point in time, the
zero time otherwise. -/
def Value.timeOrZero {fl : GoFloat} : Value fl → Time
  | .time date => date
  | _ => Time.zero

/-- The item handles the loop of `GetCitrixMetrics` obtains with `k`
iterations left from index `i`: one for each fetch, up to the first that
fails. -/
def fetchedItems {fl : GoFloat} (p : Provider fl) (results : Nat) : Nat → Nat → List Resource
  | 0, _ => []
  | k + 1, i =>
    match p.ItemIndex results i with
    | .error _ => []
    | .ok item => .item i item :: fetchedItems p results k (i + 1)

/-- What a run of `GetCitrixMetrics` obtains, in order: the result of each
call that succeeds, up to the first call that fails. -/
def obtained {fl : GoFloat} (p : Provider fl) : List Resource :=
  match p.CoInitializeEx with
  | some _ => []
  | none =>
    .ole ::
      match p.CreateObject with
      | .error _ => []
      | .ok unknown =>
        .locator unknown ::
          match p.QueryInterface unknown with
          | .error _ => []
          | .ok wmi =>
            .dispatch wmi ::
              match p.ConnectServer wmi with
              | .error _ => []
              | .ok service =>
                .service service ::
                  match p.ExecQuery service with
                  | .error _ => []
                  | .ok results =>
                    .results results ::
                      match p.Count results with
                      | .error _ => []
                      | .ok count => fetchedItems p results count.toNat 0

/-- A sign of a number: nothing, `+` or `-`. -/
def signText (s : List Char) : Prop := s = [] ∨ s = ['+'] ∨ s = ['-']

/-- The mantissa of a floating-point literal with the digits `digit`: digits,
underscores and at most one point, with at least one digit. -/
def mantissaText (digit : Char → Bool) (s : List Char) : Prop :=
  (∀ c ∈ s, digit c = true ∨ c = '_' ∨ c = '.') ∧ (∃ c ∈ s, digit c = true) ∧
    s.count '.' ≤ 1

/-- The exponent of a floating-point literal, introduced by the letter `lo`
or `up`: the letter, an optional sign, a decimal digit, then decimal digits
and underscores. -/
def exponentText (lo up : Char) (s : List Char) : Prop :=
  ∃ l sign d ds, s = l :: (sign ++ d :: ds) ∧ (l = lo ∨ l = up) ∧ signText sign ∧
    d.isDigit = true ∧ ∀ c ∈ ds, c.isDigit = true ∨ c = '_'

/-- Underscores as digit separators: every underscore of `s` stands right
after a digit (or at the start of `s` when `start` holds) and right before a
digit. -/
def separatedFrom (digit : Char → Bool) (start : Prop) (s : List Char) : Prop :=
  ∀ a b, s = a ++ '_' :: b →
    ((a = [] ∧ start) ∨ ∃ a1 c, a = a1 ++ [c] ∧ digit c = true) ∧
      ∃ c b1, b = c :: b1 ∧ digit c = true

/-- A decimal floating-point literal of Go: an optional sign, a decimal
mantissa, an optional exponent after `e` or `E`, every underscore between two
decimal digits. -/
def decimalText (s : List Char) : Prop :=
  ∃ sign m ex, s = sign ++ (m ++ ex) ∧ signText sign ∧ mantissaText Char.isDigit m ∧
    (ex = [] ∨ exponentText 'e' 'E' ex) ∧ separatedFrom Char.isDigit False s

/-- Decimal or scientific text by the spec's words: an optional sign, decimal
digits with at most one decimal point among them, and optionally an exponent:
`e` or `E`, an optional sign and one or more decimal digits. -/
def scientificText (s : List Char) : Prop :=
  ∃ sign m ex, s = sign ++ (m ++ ex) ∧ signText sign ∧
    (∀ c ∈ m, c.isDigit = true ∨ c = '.') ∧ (∃ c ∈ m, c.isDigit = true) ∧ m.count '.' ≤ 1 ∧
    (ex = [] ∨ ∃ l sign1 ds, ex = l :: (sign1 ++ ds) ∧ (l = 'e' ∨ l = 'E') ∧ signText sign1 ∧
      ds ≠ [] ∧ ∀ c ∈ ds, c.isDigit = true)

/-! ## Integer variants -/

/-- The conversion `uint64(v)` keeps a value that fits. -/
theorem toUint64_of_nonneg {n : Int} (h0 : 0 ≤ n) (h1 : n < 2 ^ 64) :
    toUint64 n = n.toNat := by
  unfold toUint64
  congr 1
  exact Int.emod_eq_of_lt h0 h1

/-- The conversion `int64(v)` keeps a value that fits. -/
theorem toInt64_of_inRange {n : Int} (h0 : -2 ^ 63 ≤ n) (h1 : n < 2 ^ 63) :
    toInt64 n = n := by
  unfold toInt64
  omega

/-- C1: for a variant holding an integer of one of the eight supported
representations with numeric value `n` (in the range of its type),
`convertToUint64` returns `n` when `n ≥ 0` and `0` when `n < 0`; for a negative
`n` the result is not the wrapped bit pattern `uint64(n)`. -/
theorem convertToUint64_integer {fl : GoFloat} (x : Value fl) (n : Int)
    (hn : x.intValue? = some n) (hwf : x.WF) :
    convertToUint64 (some x) = (if 0 ≤ n then n.toNat else 0) ∧
      (n < 0 → convertToUint64 (some x) ≠ toUint64 n) := by
  have hwrap : n < 0 → -2 ^ 63 ≤ n → (0 : Nat) ≠ toUint64 n := by
    intro h1 h2
    unfold toUint64
    omega
  cases x <;> simp only [Value.intValue?, Option.some.injEq] at hn <;>
    first
    | exact absurd hn (by simp)
    | (subst hn
       simp only [Value.WF] at hwf
       simp only [convertToUint64]
       first
       | (refine ⟨?_, fun h => absurd h (by omega)⟩
          rw [toUint64_of_nonneg (by omega) (by omega)]
          simp)
       | (refine ⟨?_, fun h => absurd h (by omega)⟩
          simp)
       | (split_ifs with h
          · exact ⟨toUint64_of_nonneg h (by omega), fun h' => absurd h' (by omega)⟩
          · exact ⟨rfl, fun h' => hwrap h' (by omega)⟩))

/-- C1, at `int8(-1)` (wrapped pattern `2^64-1`), `int64(-2^63)` and
`uint64(2^64-1)`. -/
theorem convertToUint64_integer_witness :
    ((Value.int8 (-1) : Value integralFloat).intValue? = some (-1) ∧
      (Value.int8 (-1) : Value integralFloat).WF ∧
      convertToUint64 (some (Value.int8 (-1) : Value integralFloat)) = 0 ∧
      convertToUint64 (some (Value.int8 (-1) : Value integralFloat)) ≠ toUint64 (-1)) ∧
    ((Value.int64 (-2 ^ 63) : Value integralFloat).intValue? = some (-2 ^ 63) ∧
      (Value.int64 (-2 ^ 63) : Value integralFloat).WF ∧
      convertToUint64 (some (Value.int64 (-2 ^ 63) : Value integralFloat)) = 0) ∧
    ((Value.uint64 (2 ^ 64 - 1) : Value integralFloat).intValue? = some (2 ^ 64 - 1) ∧
      (Value.uint64 (2 ^ 64 - 1) : Value integralFloat).WF ∧
      convertToUint64 (some (Value.uint64 (2 ^ 64 - 1) : Value integralFloat)) = 2 ^ 64 - 1) :=
  ⟨⟨rfl, by simp [Value.WF],
      (convertToUint64_integer (Value.int8 (-1)) (-1) rfl (by simp [Value.WF])).1,
      (convertToUint64_integer (Value.int8 (-1)) (-1) rfl (by simp [Value.WF])).2 (by decide)⟩,
    ⟨rfl, by simp [Value.WF],
      (convertToUint64_integer (Value.int64 (-2 ^ 63)) (-2 ^ 63) rfl (by simp [Value.WF])).1⟩,
    ⟨by decide, by simp [Value.WF],
      (convertToUint64_integer (Value.uint64 (2 ^ 64 - 1)) (2 ^ 64 - 1) (by decide)
        (by simp [Value.WF])).1.trans (by decide)⟩⟩

/-- C2: for a variant holding an integer of one of the eight supported
representations with numeric value `n` (in the range of its type),
`convertToInt64` returns `n` when `n ≤ 2^63-1` and `0` when `n > 2^63-1`. -/
theorem convertToInt64_integer {fl : GoFloat} (x : Value fl) (n : Int)
    (hn : x.intValue? = some n) (hwf : x.WF) :
    convertToInt64 (some x) = (if n ≤ 2 ^ 63 - 1 then n else 0) := by
  cases x <;> simp only [Value.intValue?, Option.some.injEq] at hn <;>
    first
    | exact absurd hn (by simp)
    | (subst hn
       simp only [Value.WF] at hwf
       simp only [convertToInt64]
       first
       | (rw [if_pos (by omega)]; done)
       | (rw [toInt64_of_inRange (by omega) (by omega), if_pos (by omega)])
       | (split_ifs with h1 h2 h2
          · exact toInt64_of_inRange (by omega) (by omega)
          · omega
          · omega
          · rfl))

/-- C2, at the signed-64 boundary: `uint64(2^63-1)` maps to `2^63-1` and
`uint64(2^63)` maps to `0`. -/
theorem convertToInt64_integer_witness :
    ((Value.uint64 (2 ^ 63 - 1) : Value integralFloat).intValue? = some (2 ^ 63 - 1) ∧
      (Value.uint64 (2 ^ 63 - 1) : Value integralFloat).WF ∧
      convertToInt64 (some (Value.uint64 (2 ^ 63 - 1) : Value integralFloat)) = 2 ^ 63 - 1) ∧
    ((Value.uint64 (2 ^ 63) : Value integralFloat).intValue? = some (2 ^ 63) ∧
      (Value.uint64 (2 ^ 63) : Value integralFloat).WF ∧
      convertToInt64 (some (Value.uint64 (2 ^ 63) : Value integralFloat)) = 0) :=
  ⟨⟨by decide, by simp [Value.WF],
      (convertToInt64_integer (Value.uint64 (2 ^ 63 - 1)) (2 ^ 63 - 1) (by decide)
        (by simp [Value.WF])).trans (by decide)⟩,
    ⟨by decide, by simp [Value.WF],
      (convertToInt64_integer (Value.uint64 (2 ^ 63)) (2 ^ 63) (by decide)
        (by simp [Value.WF])).trans (by decide)⟩⟩

/-- C3: for the nil pointer, for a variant whose value is null, and for every
variant whose representation is none of the recognised ones, each of
`convertToUint64`, `convertToInt64` and `convertToFloat64` returns 0. -/
theorem convert_unrecognised {fl : GoFloat} (val : Option (Value fl))
    (h : ∀ x, val = some x → x.recognised = false) :
    convertToUint64 val = 0 ∧ convertToInt64 val = 0 ∧ convertToFloat64 val = fl.zero := by
  cases val with
  | none => exact ⟨rfl, rfl, rfl⟩
  | some x =>
    have hx := h x rfl
    cases x <;> first | exact ⟨rfl, rfl, rfl⟩ | exact absurd hx (by simp [Value.recognised])

/-- C3, at the nil pointer, the null value, a boolean and a point in time. -/
theorem convert_unrecognised_witness :
    (∀ x, (none : Option (Value integralFloat)) = some x → x.recognised = false) ∧
      (convertToUint64 (none : Option (Value integralFloat)) = 0 ∧
        convertToInt64 (none : Option (Value integralFloat)) = 0 ∧
        convertToFloat64 (none : Option (Value integralFloat)) = integralFloat.zero) ∧
      (convertToUint64 (some (Value.bool true : Value integralFloat)) = 0 ∧
        convertToInt64 (some (Value.bool true : Value integralFloat)) = 0 ∧
        convertToFloat64 (some (Value.bool true : Value integralFloat)) = integralFloat.zero) ∧
      (convertToUint64 (some (Value.time ⟨5⟩ : Value integralFloat)) = 0 ∧
        convertToInt64 (some (Value.time ⟨5⟩ : Value integralFloat)) = 0 ∧
        convertToFloat64 (some (Value.time ⟨5⟩ : Value integralFloat)) = integralFloat.zero) ∧
      (convertToUint64 (some (Value.null : Value integralFloat)) = 0 ∧
        convertToInt64 (some (Value.null : Value integralFloat)) = 0 ∧
        convertToFloat64 (some (Value.null : Value integralFloat)) = integralFloat.zero) :=
  ⟨fun _ h => Option.noConfusion h,
    convert_unrecognised none (fun _ h => Option.noConfusion h),
    convert_unrecognised (some (Value.bool true)) (fun _ h => by cases h; rfl),
    convert_unrecognised (some (Value.time ⟨5⟩)) (fun _ h => by cases h; rfl),
    convert_unrecognised (some Value.null) (fun _ h => by cases h; rfl)⟩

/-! ## The merge stage -/

/-- The key of the lookup: `fmt.Sprintf("%d", id)` is the signed decimal
rendering of `id`. -/
theorem Sprintf_d_int64 {fl : GoFloat} (v : Int) :
    Sprintf "%d" [(Arg.int64 v : Arg fl)] = fmtInt v := by
  simp [Sprintf, sprintfAux, Arg.render, extraOperands]

/-- The loop body leaves SessionID as it is. -/
theorem mergeBody_SessionID {fl : GoFloat} (g : SessionGUIDMapping)
    (m : CitrixEndpointMetric fl) : (mergeBody g m).SessionID = m.SessionID := by
  unfold mergeBody
  simp only [Sprintf_d_int64]
  split_ifs
  · split <;> rfl
  · rfl

/-- The SessionGUID the loop body assigns. -/
theorem mergeBody_SessionGUID {fl : GoFloat} (g : SessionGUIDMapping)
    (m : CitrixEndpointMetric fl) :
    (mergeBody g m).SessionGUID =
      if m.SessionID = 0 then "No SessionID available"
      else (g.get (fmtInt m.SessionID)).getD "No GUID found for SessionID" := by
  unfold mergeBody
  simp only [Sprintf_d_int64]
  by_cases h : m.SessionID = 0
  · simp [h]
  · simp only [h, ne_eq, not_false_eq_true, if_true, if_false]
    cases g.get (fmtInt m.SessionID) <;> rfl

/-- Updating the element right after a prefix. -/
theorem modify_length_append {α : Type} (f : α → α) (pre : List α) (a : α) (rest : List α) :
    List.modify f pre.length (pre ++ a :: rest) = pre ++ f a :: rest := by
  induction pre with
  | nil => rfl
  | cons b pre ih => simpa using ih

/-- The loop, started after the records it has already updated. -/
theorem mergeLoop_append {fl : GoFloat} (g : SessionGUIDMapping)
    (rest pre : List (CitrixEndpointMetric fl)) :
    mergeLoop g rest.length pre.length (pre ++ rest) = pre ++ rest.map (mergeBody g) := by
  induction rest generalizing pre with
  | nil => simp [mergeLoop]
  | cons a rest ih =>
    have h := ih (pre ++ [mergeBody g a])
    simp only [List.length_append, List.length_singleton, List.append_assoc,
      List.singleton_append] at h
    simp only [List.length_cons, mergeLoop, modify_length_append, List.map_cons]
    exact h

/-- The merge loop updates every record by the loop body, in place. -/
theorem mergeStage_eq_map {fl : GoFloat} (g : SessionGUIDMapping)
    (ms : List (CitrixEndpointMetric fl)) : mergeStage g ms = ms.map (mergeBody g) := by
  have h := mergeLoop_append g ms []
  simpa [mergeStage] using h

/-- The merge stage keeps the number of records. -/
theorem mergeStage_length {fl : GoFloat} (g : SessionGUIDMapping)
    (ms : List (CitrixEndpointMetric fl)) : (mergeStage g ms).length = ms.length := by
  simp [mergeStage_eq_map]

/-- The record at an index after the merge stage is the loop body applied to the
record at that index before it. -/
theorem mergeStage_getElem? {fl : GoFloat} (g : SessionGUIDMapping)
    (ms : List (CitrixEndpointMetric fl)) (i : Nat) (m' : CitrixEndpointMetric fl)
    (h : (mergeStage g ms)[i]? = some m') :
    ∃ m, ms[i]? = some m ∧ m' = mergeBody g m := by
  rw [mergeStage_eq_map, List.getElem?_map] at h
  cases hm : ms[i]? with
  | none => simp [hm] at h
  | some m =>
    refine ⟨m, rfl, ?_⟩
    simpa [hm] using h.symm

/-- C4: after the merge stage, whatever the mapping (nil, empty, or holding
the key "0"), the sequence has its length unchanged and every record whose
SessionID is 0 has SessionGUID "No SessionID available". -/
theorem mergeStage_zero_session {fl : GoFloat} (g : SessionGUIDMapping)
    (ms : List (CitrixEndpointMetric fl)) :
    (mergeStage g ms).length = ms.length ∧
      ∀ (i : Nat) (m' : CitrixEndpointMetric fl), (mergeStage g ms)[i]? = some m' →
        m'.SessionID = 0 → m'.SessionGUID = "No SessionID available" := by
  refine ⟨mergeStage_length g ms, fun i m' h h0 => ?_⟩
  obtain ⟨m, -, rfl⟩ := mergeStage_getElem? g ms i m' h
  rw [mergeBody_SessionID] at h0
  rw [mergeBody_SessionGUID, if_pos h0]

/-- C4, at a record with SessionID 0 and a mapping that holds the key "0". -/
theorem mergeStage_zero_session_witness :
    (mergeStage (some [("0", "GUID-ZERO")]) [sessionFiveRecord, noSessionRecord])[1]? =
        some (mergeBody (some [("0", "GUID-ZERO")]) noSessionRecord) ∧
      (mergeBody (some [("0", "GUID-ZERO")]) noSessionRecord).SessionID = 0 ∧
      (mergeBody (some [("0", "GUID-ZERO")]) noSessionRecord).SessionGUID =
        "No SessionID available" :=
  ⟨rfl, rfl,
    (mergeStage_zero_session (some [("0", "GUID-ZERO")])
      [sessionFiveRecord, noSessionRecord]).2 1 _ rfl rfl⟩

/-- C5: after the merge stage every record whose SessionID is non-zero and
whose SessionID rendered as decimal text is a key of the mapping has
SessionGUID equal to the mapped value. -/
theorem mergeStage_mapped_session {fl : GoFloat} (g : SessionGUIDMapping)
    (ms : List (CitrixEndpointMetric fl)) :
    (mergeStage g ms).length = ms.length ∧
      ∀ (i : Nat) (m' : CitrixEndpointMetric fl) (guid : String),
        (mergeStage g ms)[i]? = some m' → m'.SessionID ≠ 0 →
        g.get (fmtInt m'.SessionID) = some guid → m'.SessionGUID = guid := by
  refine ⟨mergeStage_length g ms, fun i m' guid h h0 hk => ?_⟩
  obtain ⟨m, -, rfl⟩ := mergeStage_getElem? g ms i m' h
  rw [mergeBody_SessionID] at h0 hk
  rw [mergeBody_SessionGUID, if_neg h0, hk]
  rfl

/-- C5, at a negative SessionID mapped to the empty string and a positive one
mapped to a sentinel string. -/
theorem mergeStage_mapped_session_witness :
    ((mergeStage (some [("5", "No SessionID available"), ("-7", "")])
          [sessionFiveRecord, sessionMinusSevenRecord])[1]? =
        some (mergeBody (some [("5", "No SessionID available"), ("-7", "")])
          sessionMinusSevenRecord) ∧
      (mergeBody (some [("5", "No SessionID available"), ("-7", "")])
          sessionMinusSevenRecord).SessionID ≠ 0 ∧
      SessionGUIDMapping.get (some [("5", "No SessionID available"), ("-7", "")])
          (fmtInt (mergeBody (some [("5", "No SessionID available"), ("-7", "")])
            sessionMinusSevenRecord).SessionID) = some "" ∧
      (mergeBody (some [("5", "No SessionID available"), ("-7", "")])
          sessionMinusSevenRecord).SessionGUID = "") :=
  ⟨rfl, by decide, by decide,
    (mergeStage_mapped_session (some [("5", "No SessionID available"), ("-7", "")])
      [sessionFiveRecord, sessionMinusSevenRecord]).2 1 _ "" rfl (by decide) (by decide)⟩

/-- C6: after the merge stage every record whose SessionID is non-zero and
whose decimal rendering is not a key of the mapping has SessionGUID
"No GUID found for SessionID"; with a nil or an empty mapping this holds of
every record with a non-zero SessionID. The stage is a total function and
keeps the length of the sequence. -/
theorem mergeStage_unmapped_session {fl : GoFloat} (g : SessionGUIDMapping)
    (ms : List (CitrixEndpointMetric fl)) :
    (mergeStage g ms).length = ms.length ∧
      (∀ (i : Nat) (m' : CitrixEndpointMetric fl),
        (mergeStage g ms)[i]? = some m' → m'.SessionID ≠ 0 →
        g.get (fmtInt m'.SessionID) = none →
        m'.SessionGUID = "No GUID found for SessionID") ∧
      (∀ (i : Nat) (m' : CitrixEndpointMetric fl),
        g = none ∨ g = some [] →
        (mergeStage g ms)[i]? = some m' → m'.SessionID ≠ 0 →
        m'.SessionGUID = "No GUID found for SessionID") := by
  have key : ∀ (i : Nat) (m' : CitrixEndpointMetric fl),
      (mergeStage g ms)[i]? = some m' → m'.SessionID ≠ 0 →
      g.get (fmtInt m'.SessionID) = none →
      m'.SessionGUID = "No GUID found for SessionID" := by
    intro i m' h h0 hk
    obtain ⟨m, -, rfl⟩ := mergeStage_getElem? g ms i m' h
    rw [mergeBody_SessionID] at h0 hk
    rw [mergeBody_SessionGUID, if_neg h0, hk]
    rfl
  refine ⟨mergeStage_length g ms, key, fun i m' hg h h0 => key i m' h h0 ?_⟩
  rcases hg with rfl | rfl <;> rfl

/-- C6, at a nil mapping and at a mapping without the record's key. -/
theorem mergeStage_unmapped_session_witness :
    ((mergeStage none [noSessionRecord, sessionFiveRecord])[1]? =
        some (mergeBody none sessionFiveRecord) ∧
      (mergeBody none sessionFiveRecord).SessionID ≠ 0 ∧
      (mergeBody none sessionFiveRecord).SessionGUID = "No GUID found for SessionID") ∧
    ((mergeStage (some [("5", "GUID-ABC")]) [sessionMinusSevenRecord])[0]? =
        some (mergeBody (some [("5", "GUID-ABC")]) sessionMinusSevenRecord) ∧
      (mergeBody (some [("5", "GUID-ABC")]) sessionMinusSevenRecord).SessionID ≠ 0 ∧
      SessionGUIDMapping.get (some [("5", "GUID-ABC")])
          (fmtInt (mergeBody (some [("5", "GUID-ABC")]) sessionMinusSevenRecord).SessionID) =
        none ∧
      (mergeBody (some [("5", "GUID-ABC")]) sessionMinusSevenRecord).SessionGUID =
        "No GUID found for SessionID") :=
  ⟨⟨rfl, by decide,
      (mergeStage_unmapped_session none [noSessionRecord, sessionFiveRecord]).2.2 1 _
        (Or.inl rfl) rfl (by decide)⟩,
    ⟨rfl, by decide, by decide,
      (mergeStage_unmapped_session (some [("5", "GUID-ABC")]) [sessionMinusSevenRecord]).2.1 0 _
        rfl (by decide) (by decide)⟩⟩

/-! ## The formatter -/

/-- The byte `'0' + d` of a digit value is a decimal digit. -/
theorem digitChar_isDigit (d : Nat) (h : d < 10) : (Char.ofNat (48 + d)).isDigit = true := by
  interval_cases d <;> decide

/-- The digit loop pushes decimal digits only. -/
theorem fmtDigits_isDigit (fuel u : Nat) (buf : List Char) :
    ∀ c ∈ fmtDigits fuel u buf, c.isDigit = true ∨ c ∈ buf := by
  induction fuel generalizing u buf with
  | zero =>
    intro c hc
    simp only [fmtDigits, List.mem_cons] at hc
    rcases hc with rfl | hc
    · exact Or.inl (digitChar_isDigit _ (Nat.mod_lt _ (by decide)))
    · exact Or.inr hc
  | succ fuel ih =>
    intro c hc
    simp only [fmtDigits] at hc
    split_ifs at hc with h
    · rcases ih _ _ c hc with h1 | h1
      · exact Or.inl h1
      · rcases List.mem_cons.1 h1 with rfl | h2
        · exact Or.inl (digitChar_isDigit _ (Nat.mod_lt _ (by decide)))
        · exact Or.inr h2
    · rcases List.mem_cons.1 hc with rfl | h2
      · exact Or.inl (digitChar_isDigit _ (by omega))
      · exact Or.inr h2

/-- The rendering of a `uint64` consists of decimal digits only. -/
theorem fmtUint_isDigit (u : Nat) : ∀ c ∈ (fmtUint u).data, c.isDigit = true := by
  intro c hc
  rcases fmtDigits_isDigit u u [] c hc with h | h
  · exact h
  · simp at h

/-- No space in the rendering of a `uint64`. -/
theorem fmtUint_no_space (u : Nat) : ' ' ∉ (fmtUint u).data :=
  fun h => absurd (fmtUint_isDigit u _ h) (by decide)

/-- No line break in the rendering of a `uint64`. -/
theorem fmtUint_no_newline (u : Nat) : '\n' ∉ (fmtUint u).data :=
  fun h => absurd (fmtUint_isDigit u _ h) (by decide)

/-- A string is made of its characters. -/
theorem mk_data (s : String) : String.mk s.data = s := rfl

set_option maxRecDepth 100000 in
/-- The formatted record, piece by piece. -/
theorem metricLine_data {fl : GoFloat} (m : CitrixEndpointMetric fl) :
    (metricLine m).data =
      [' '].intercalate
        [("AvgBeaconLatency=" ++ fl.format m.AvgBeaconLatency).data,
         ("AvgThroughputBytesRcvd=" ++ fl.format m.AvgThroughputBytesRcvd).data,
         ("AvgThroughputBytesSent=" ++ fl.format m.AvgThroughputBytesSent).data,
         ("ClientTimestamp=" ++ fmtUint m.ClientTimestamp).data,
         ("GpuAvgUsage=" ++ fl.format m.GpuAvgUsage).data,
         ("GpuMaxUsage=" ++ fmtUint m.GpuMaxUsage).data,
         ("LinkSpeed=" ++ fmtUint m.LinkSpeed).data,
         ("MaxPrivilegedTime=" ++ fmtUint m.MaxPrivilegedTime).data,
         ("MaxProcessorTime=" ++ fmtUint m.MaxProcessorTime).data,
         ("MaxThroughputBytesRcvd=" ++ fmtUint m.MaxThroughputBytesRcvd).data,
         ("MaxThroughputBytesSent=" ++ fmtUint m.MaxThroughputBytesSent).data,
         ("MaxUserTime=" ++ fmtUint m.MaxUserTime).data,
         ("NetworkInterfaceType=" ++ m.NetworkInterfaceType).data,
         ("RamMaxUsage=" ++ fmtUint m.RamMaxUsage).data,
         ("SessionGUID=" ++ m.SessionGUID).data,
         ("SignalStrength=" ++ fmtUint m.SignalStrength).data] := by
  simp [metricLine, Sprintf, sprintfAux, Arg.render, Arg.fmtV, extraOperands,
    List.intercalate]

/-- The rendering of an `int64` consists of decimal digits and `-` only. -/
theorem fmtInt_chars (v : Int) : ∀ c ∈ (fmtInt v).data, c.isDigit = true ∨ c = '-' := by
  intro c hc
  unfold fmtInt at hc
  split_ifs at hc
  · rcases List.mem_cons.1 hc with rfl | h
    · exact Or.inr rfl
    · rcases fmtDigits_isDigit _ _ [] c h with h1 | h1
      · exact Or.inl h1
      · simp at h1
  · exact Or.inl (fmtUint_isDigit _ c hc)

/-- The rendering of `integralFloat` holds neither a space nor a line break. -/
theorem integralFloat_format_clean (x : integralFloat.F64) :
    ' ' ∉ (integralFloat.format x).data ∧ '\n' ∉ (integralFloat.format x).data := by
  constructor <;> intro h <;> rcases fmtInt_chars x _ h with h1 | h1 <;>
    exact absurd h1 (by decide)

/-- C7 as stated fails: the record of a session-less row after the merge stage
has SessionGUID "No SessionID available", and its line splits on spaces into
18 tokens, two of which are no key=value pair. -/
theorem metricLine_tokens_counterexample :
    lineTokens (metricLine (mergeBody none noSessionRecord)) =
        ["AvgBeaconLatency=0", "AvgThroughputBytesRcvd=0", "AvgThroughputBytesSent=0",
         "ClientTimestamp=0", "GpuAvgUsage=0", "GpuMaxUsage=0", "LinkSpeed=100",
         "MaxPrivilegedTime=0", "MaxProcessorTime=0", "MaxThroughputBytesRcvd=0",
         "MaxThroughputBytesSent=0", "MaxUserTime=0", "NetworkInterfaceType=",
         "RamMaxUsage=0", "SessionGUID=No", "SessionID", "available", "SignalStrength=0"] ∧
      (lineTokens (metricLine (mergeBody none noSessionRecord))).length ≠ 16 := by
  decide

set_option maxRecDepth 100000 in
/-- C7, amended: when NetworkInterfaceType and SessionGUID hold neither a space
nor a line break (and the rendering of a float holds none, as Go's does), the
formatted record is a single line that splits on spaces into exactly 16
key=value tokens with the keys of the output contract, in its order. -/
theorem metricLine_tokens {fl : GoFloat} (m : CitrixEndpointMetric fl)
    (hfmt : ∀ x : fl.F64, ' ' ∉ (fl.format x).data ∧ '\n' ∉ (fl.format x).data)
    (hnet : ' ' ∉ m.NetworkInterfaceType.data ∧ '\n' ∉ m.NetworkInterfaceType.data)
    (hguid : ' ' ∉ m.SessionGUID.data ∧ '\n' ∉ m.SessionGUID.data) :
    PrintMetricKeyValue m = metricLine m ++ "\n" ∧ '\n' ∉ (metricLine m).data ∧
      lineTokens (metricLine m) =
        ["AvgBeaconLatency=" ++ fl.format m.AvgBeaconLatency,
         "AvgThroughputBytesRcvd=" ++ fl.format m.AvgThroughputBytesRcvd,
         "AvgThroughputBytesSent=" ++ fl.format m.AvgThroughputBytesSent,
         "ClientTimestamp=" ++ fmtUint m.ClientTimestamp,
         "GpuAvgUsage=" ++ fl.format m.GpuAvgUsage,
         "GpuMaxUsage=" ++ fmtUint m.GpuMaxUsage,
         "LinkSpeed=" ++ fmtUint m.LinkSpeed,
         "MaxPrivilegedTime=" ++ fmtUint m.MaxPrivilegedTime,
         "MaxProcessorTime=" ++ fmtUint m.MaxProcessorTime,
         "MaxThroughputBytesRcvd=" ++ fmtUint m.MaxThroughputBytesRcvd,
         "MaxThroughputBytesSent=" ++ fmtUint m.MaxThroughputBytesSent,
         "MaxUserTime=" ++ fmtUint m.MaxUserTime,
         "NetworkInterfaceType=" ++ m.NetworkInterfaceType,
         "RamMaxUsage=" ++ fmtUint m.RamMaxUsage,
         "SessionGUID=" ++ m.SessionGUID,
         "SignalStrength=" ++ fmtUint m.SignalStrength] := by
  have hs := fun x => (hfmt x).1
  have hl := fun x => (hfmt x).2
  refine ⟨rfl, ?_, ?_⟩
  · rw [metricLine_data]
    simp [List.intercalate, hl, fmtUint_no_newline, hnet.2, hguid.2]
  · unfold lineTokens
    rw [metricLine_data, List.splitOn_intercalate]
    · simp only [List.map_cons, List.map_nil, mk_data]
    · intro l hl'
      simp only [List.mem_cons, List.mem_singleton, List.not_mem_nil, or_false] at hl'
      rcases hl' with h | h | h | h | h | h | h | h | h | h | h | h | h | h | h | h <;>
        subst h <;> simp [hs, fmtUint_no_space, hnet.1, hguid.1]
    · simp

/-- C7 amended, at the record of session 5 merged with the mapping
{"5": "GUID-ABC"}. -/
theorem metricLine_tokens_witness :
    (∀ x : integralFloat.F64,
        ' ' ∉ (integralFloat.format x).data ∧ '\n' ∉ (integralFloat.format x).data) ∧
      (' ' ∉ (mergeBody (some [("5", "GUID-ABC")]) sessionFiveRecord).NetworkInterfaceType.data ∧
        '\n' ∉ (mergeBody (some [("5", "GUID-ABC")]) sessionFiveRecord).NetworkInterfaceType.data) ∧
      (' ' ∉ (mergeBody (some [("5", "GUID-ABC")]) sessionFiveRecord).SessionGUID.data ∧
        '\n' ∉ (mergeBody (some [("5", "GUID-ABC")]) sessionFiveRecord).SessionGUID.data) ∧
      lineTokens (metricLine (mergeBody (some [("5", "GUID-ABC")]) sessionFiveRecord)) =
        ["AvgBeaconLatency=12", "AvgThroughputBytesRcvd=0", "AvgThroughputBytesSent=0",
         "ClientTimestamp=1700000000", "GpuAvgUsage=0", "GpuMaxUsage=0", "LinkSpeed=1000",
         "MaxPrivilegedTime=0", "MaxProcessorTime=0", "MaxThroughputBytesRcvd=0",
         "MaxThroughputBytesSent=0", "MaxUserTime=0", "NetworkInterfaceType=",
         "RamMaxUsage=0", "SessionGUID=GUID-ABC", "SignalStrength=0"] :=
  ⟨integralFloat_format_clean, by decide, by decide,
    (metricLine_tokens (mergeBody (some [("5", "GUID-ABC")]) sessionFiveRecord)
      integralFloat_format_clean (by decide) (by decide)).2.2.trans (by decide)⟩

/-- C8: two records that agree on the 16 emitted fields produce the same
output, whatever their other fields (AvgPrivilegedTime, AvgProcessorTime,
AvgUserTime, City, Country, EndpointIP, ISP, LatencyUnit, RamAvgUsage,
SessionID, SpeedUnit, Timestamp) hold. -/
theorem PrintMetricKeyValue_omitted_fields {fl : GoFloat} (a b : CitrixEndpointMetric fl)
    (h1 : a.AvgBeaconLatency = b.AvgBeaconLatency)
    (h2 : a.AvgThroughputBytesRcvd = b.AvgThroughputBytesRcvd)
    (h3 : a.AvgThroughputBytesSent = b.AvgThroughputBytesSent)
    (h4 : a.ClientTimestamp = b.ClientTimestamp)
    (h5 : a.GpuAvgUsage = b.GpuAvgUsage)
    (h6 : a.GpuMaxUsage = b.GpuMaxUsage)
    (h7 : a.LinkSpeed = b.LinkSpeed)
    (h8 : a.MaxPrivilegedTime = b.MaxPrivilegedTime)
    (h9 : a.MaxProcessorTime = b.MaxProcessorTime)
    (h10 : a.MaxThroughputBytesRcvd = b.MaxThroughputBytesRcvd)
    (h11 : a.MaxThroughputBytesSent = b.MaxThroughputBytesSent)
    (h12 : a.MaxUserTime = b.MaxUserTime)
    (h13 : a.NetworkInterfaceType = b.NetworkInterfaceType)
    (h14 : a.RamMaxUsage = b.RamMaxUsage)
    (h15 : a.SessionGUID = b.SessionGUID)
    (h16 : a.SignalStrength = b.SignalStrength) :
    PrintMetricKeyValue a = PrintMetricKeyValue b := by
  unfold PrintMetricKeyValue metricLine
  rw [h1, h2, h3, h4, h5, h6, h7, h8, h9, h10, h11, h12, h13, h14, h15, h16]

/-- C8, at two records that differ in all 12 omitted fields. -/
theorem PrintMetricKeyValue_omitted_fields_witness :
    sessionFiveRecord.SessionID ≠ otherOmittedRecord.SessionID ∧
      sessionFiveRecord.City ≠ otherOmittedRecord.City ∧
      sessionFiveRecord.Timestamp ≠ otherOmittedRecord.Timestamp ∧
      PrintMetricKeyValue sessionFiveRecord = PrintMetricKeyValue otherOmittedRecord :=
  ⟨by decide, by decide, by decide,
    PrintMetricKeyValue_omitted_fields sessionFiveRecord otherOmittedRecord
      rfl rfl rfl rfl rfl rfl rfl rfl rfl rfl rfl rfl rfl rfl rfl rfl⟩

/-! ## Text variants -/

/-- The test `'0' <= c && c <= '9'`, as `Char.isDigit`. -/
theorem isDigit_iff (c : Char) : c.isDigit = true ↔ 48 ≤ c.toNat ∧ c.toNat ≤ 57 := by
  unfold Char.isDigit Char.toNat
  simp only [Bool.and_eq_true, decide_eq_true_eq, ge_iff_le, UInt32.le_def]
  rfl

/-- The digit arm of the loop of `ParseUint`. -/
theorem digitVal_of_isDigit (c : Char) (h : c.isDigit = true) :
    digitVal c.toNat = some (c.toNat - 48) := by
  rw [isDigit_iff] at h
  simp [digitVal, h]

/-- A character that is no decimal digit is refused in base 10: it has no digit
value, or one of 10 or more. -/
theorem digitVal_of_not_isDigit (c : Char) (h : ¬ c.isDigit = true) :
    digitVal c.toNat = none ∨ ∃ d, digitVal c.toNat = some d ∧ 10 ≤ d := by
  rw [isDigit_iff] at h
  unfold digitVal
  rw [if_neg h]
  split_ifs
  · exact Or.inr ⟨_, rfl, by omega⟩
  · exact Or.inl rfl

/-- Reading one more digit. -/
theorem decimalFrom_cons (acc : Nat) (c : Char) (cs : List Char) :
    decimalFrom acc (c :: cs) = decimalFrom (acc * 10 + (c.toNat - 48)) cs := rfl

/-- Reading digits never decreases the value. -/
theorem le_decimalFrom (acc : Nat) (cs : List Char) : acc ≤ decimalFrom acc cs := by
  induction cs generalizing acc with
  | nil => exact Nat.le_refl _
  | cons c cs ih =>
    rw [decimalFrom_cons]
    exact Nat.le_trans (by omega) (ih _)

/-- The loop of `ParseUint` on a run of decimal digits. -/
theorem parseUintLoop_digits (cs : List Char) (n : Nat) (hn : n < 2 ^ 64)
    (h : ∀ c ∈ cs, c.isDigit = true) :
    parseUintLoop 10 ((2 ^ 64 - 1) / 10 + 1) (2 ^ 64 - 1) cs n =
      if decimalFrom n cs < 2 ^ 64 then (decimalFrom n cs, none)
      else (2 ^ 64 - 1, some .outOfRange) := by
  induction cs generalizing n with
  | nil =>
    simp only [parseUintLoop, decimalFrom, List.foldl_nil]
    rw [if_pos hn]
  | cons c cs ih =>
    have hc := h c (List.mem_cons_self _ _)
    have hd : c.toNat - 48 < 10 := by
      have := (isDigit_iff c).1 hc
      omega
    have hmono := le_decimalFrom (n * 10 + (c.toNat - 48)) cs
    rw [decimalFrom_cons]
    simp only [parseUintLoop, digitVal_of_isDigit c hc]
    rw [if_neg (by omega)]
    by_cases hcut : n ≥ (2 ^ 64 - 1) / 10 + 1
    · rw [if_pos hcut, if_neg (by omega)]
    · rw [if_neg hcut]
      by_cases hov : n * 10 + (c.toNat - 48) < 2 ^ 64
      · have e1 : n * 10 % 2 ^ 64 = n * 10 := Nat.mod_eq_of_lt (by omega)
        have e2 : (n * 10 + (c.toNat - 48)) % 2 ^ 64 = n * 10 + (c.toNat - 48) :=
          Nat.mod_eq_of_lt hov
        simp only [e1, e2]
        rw [if_neg (by omega)]
        exact ih _ hov (fun c' hc' => h c' (List.mem_cons_of_mem _ hc'))
      · have e1 : n * 10 % 2 ^ 64 = n * 10 := Nat.mod_eq_of_lt (by omega)
        simp only [e1]
        rw [if_pos (by omega), if_neg (by omega)]

/-- The loop of `ParseUint` on text that holds a character that is no decimal
digit: it returns one of the two errors. -/
theorem parseUintLoop_not_digits (cs : List Char) (n : Nat)
    (h : ¬ ∀ c ∈ cs, c.isDigit = true) :
    parseUintLoop 10 ((2 ^ 64 - 1) / 10 + 1) (2 ^ 64 - 1) cs n = (0, some .malformed) ∨
      parseUintLoop 10 ((2 ^ 64 - 1) / 10 + 1) (2 ^ 64 - 1) cs n =
        (2 ^ 64 - 1, some .outOfRange) := by
  induction cs generalizing n with
  | nil => exact absurd (fun c hc => absurd hc (List.not_mem_nil c)) h
  | cons c cs ih =>
    by_cases hc : c.isDigit = true
    · have hrest : ¬ ∀ c' ∈ cs, c'.isDigit = true := by
        intro hall
        apply h
        intro c' hc'
        rcases List.mem_cons.1 hc' with rfl | h'
        · exact hc
        · exact hall c' h'
      simp only [parseUintLoop, digitVal_of_isDigit c hc]
      split_ifs
      · exact Or.inl rfl
      · exact Or.inr rfl
      · exact Or.inr rfl
      · exact ih _ hrest
    · rcases digitVal_of_not_isDigit c hc with h0 | ⟨d, h0, hd⟩
      · exact Or.inl (by simp only [parseUintLoop, h0])
      · exact Or.inl (by simp only [parseUintLoop, h0, ge_iff_le, if_pos hd])

/-- `isDecimal` spelled out. -/
theorem isDecimal_iff (cs : List Char) :
    isDecimal cs = true ↔ cs ≠ [] ∧ ∀ c ∈ cs, c.isDigit = true := by
  cases cs <;> simp [isDecimal]

/-- The empty string is the one without characters. -/
theorem data_eq_nil_iff (s : String) : s.data = [] ↔ s = "" := by
  constructor
  · intro h
    exact String.ext h
  · rintro rfl
    rfl

/-- `ParseUint` on a non-empty run of decimal digits: its value, or `ErrRange`
from `2^64` on. -/
theorem ParseUint_of_decimal (s : String) (h : isDecimal s.data = true) :
    ParseUint s 10 64 =
      if decimalValue s.data < 2 ^ 64 then (decimalValue s.data, none)
      else (2 ^ 64 - 1, some .outOfRange) := by
  obtain ⟨hne, hall⟩ := (isDecimal_iff _).1 h
  have hs : s ≠ "" := fun e => hne ((data_eq_nil_iff s).2 e)
  unfold ParseUint
  rw [if_neg hs]
  exact parseUintLoop_digits s.data 0 (by decide) hall

/-- `ParseUint` on any other text: one of the two errors. -/
theorem ParseUint_of_not_decimal (s : String) (h : ¬ isDecimal s.data = true) :
    ParseUint s 10 64 = (0, some .malformed) ∨
      ParseUint s 10 64 = (2 ^ 64 - 1, some .outOfRange) := by
  unfold ParseUint
  by_cases hs : s = ""
  · rw [if_pos hs]
    exact Or.inl rfl
  · rw [if_neg hs]
    apply parseUintLoop_not_digits
    intro hall
    exact h ((isDecimal_iff _).2 ⟨fun e => hs ((data_eq_nil_iff s).1 e), hall⟩)

/-- C9: `convertToUint64` applied to a text variant holding `s` returns `n`
when `s` is a non-empty string of ASCII decimal digits whose value `n` is
below `2^64`, and returns 0 for every other text. -/
theorem convertToUint64_text {fl : GoFloat} (s : String) :
    convertToUint64 (some (Value.string s : Value fl)) =
      if isDecimal s.data = true ∧ decimalValue s.data < 2 ^ 64 then decimalValue s.data
      else 0 := by
  simp only [convertToUint64]
  by_cases h : isDecimal s.data = true
  · rw [ParseUint_of_decimal s h]
    by_cases hv : decimalValue s.data < 2 ^ 64
    · rw [if_pos hv, if_pos ⟨h, hv⟩]
    · rw [if_neg hv, if_neg (fun hh => hv hh.2)]
  · rw [if_neg (fun hh => h hh.1)]
    rcases ParseUint_of_not_decimal s h with e | e <;> rw [e]

/-- What `ParseInt` makes of the result of `ParseUint` on the text after the sign. -/
theorem ParseInt_cons (c : Char) (cs : List Char) :
    ParseInt (String.mk (c :: cs)) 10 64 =
      match ParseUint (String.mk (if c = '+' then cs else if c = '-' then cs else c :: cs)) 10 64 with
      | (_, some .malformed) => (0, some .malformed)
      | (un, _) =>
        if !decide (c = '-') ∧ un ≥ 2 ^ 63 then (toInt64 ((2 ^ 63 - 1 : Nat) : Int), some .outOfRange)
        else if decide (c = '-') ∧ un > 2 ^ 63 then
          (toInt64 (-(toInt64 ((2 ^ 63 : Nat) : Int))), some .outOfRange)
        else (if decide (c = '-') then toInt64 (-(toInt64 un)) else toInt64 un, none) := by
  rfl

/-- The conversion `int64(un)` below `2^63`. -/
theorem toInt64_natCast (d : Nat) (h : d < 2 ^ 63) : toInt64 (d : Int) = (d : Int) := by
  unfold toInt64
  omega

/-- The negation `-int64(un)` up to `2^63`, wrap included. -/
theorem toInt64_neg_toInt64 (d : Nat) (h : d ≤ 2 ^ 63) :
    toInt64 (-(toInt64 (d : Int))) = -(d : Int) := by
  unfold toInt64
  omega

/-- The value `convertToInt64` takes from `ParseInt`, in terms of the text
after the sign. -/
theorem ParseInt_value (c : Char) (cs : List Char) :
    (match ParseInt (String.mk (c :: cs)) 10 64 with
      | (parsed, none) => parsed
      | (_, some _) => 0) =
      if isDecimal (if c = '+' then cs else if c = '-' then cs else c :: cs) = true then
        (if c = '-' then
          (if decimalValue (if c = '+' then cs else if c = '-' then cs else c :: cs) ≤ 2 ^ 63
            then -(decimalValue (if c = '+' then cs else if c = '-' then cs else c :: cs) : Int)
            else 0)
        else
          (if decimalValue (if c = '+' then cs else if c = '-' then cs else c :: cs) < 2 ^ 63
            then (decimalValue (if c = '+' then cs else if c = '-' then cs else c :: cs) : Int)
            else 0))
      else 0 := by
  rw [ParseInt_cons]
  generalize (if c = '+' then cs else if c = '-' then cs else c :: cs) = rest
  by_cases hdec : isDecimal rest = true
  · rw [if_pos hdec, ParseUint_of_decimal _ hdec]
    simp only []
    by_cases hv : decimalValue rest < 2 ^ 64
    · rw [if_pos hv]
      by_cases hneg : c = '-'
      · simp only [hneg, decide_True, Bool.not_true, Bool.false_eq_true, false_and, if_false,
          true_and, if_true]
        by_cases h63 : decimalValue rest ≤ 2 ^ 63
        · rw [if_neg (by omega), if_pos h63]
          exact toInt64_neg_toInt64 _ h63
        · rw [if_pos (by omega), if_neg h63]
      · simp only [hneg, decide_False, Bool.not_false, true_and, Bool.false_eq_true, false_and,
          if_false]
        by_cases h63 : decimalValue rest < 2 ^ 63
        · rw [if_neg (by omega), if_pos h63]
          exact toInt64_natCast _ h63
        · rw [if_pos (by omega), if_neg h63]
    · rw [if_neg hv]
      by_cases hneg : c = '-'
      · simp only [hneg, decide_True, Bool.not_true, Bool.false_eq_true, false_and, if_false,
          true_and, if_true]
        rw [if_pos (by decide), if_neg (by omega)]
      · simp only [hneg, decide_False, Bool.not_false, true_and, Bool.false_eq_true, false_and,
          if_false]
        rw [if_pos (by decide), if_neg (by omega)]
  · rw [if_neg hdec]
    rcases ParseUint_of_not_decimal _ hdec with e | e
    · rw [e]
    · rw [e]
      by_cases hneg : c = '-'
      · simp only [hneg, decide_True, Bool.not_true, Bool.false_eq_true, false_and, if_false,
          true_and, if_true]
        rw [if_pos (by decide)]
      · simp only [hneg, decide_False, Bool.not_false, true_and, Bool.false_eq_true, false_and,
          if_false]
        rw [if_pos (by decide)]

/-- The signed range, for a non-negative value. -/
theorem inRange_natCast (d : Nat) :
    (if -2 ^ 63 ≤ (d : Int) ∧ (d : Int) ≤ 2 ^ 63 - 1 then (d : Int) else 0) =
      if d < 2 ^ 63 then (d : Int) else 0 := by
  split_ifs <;> first | rfl | omega

/-- The signed range, for a negated value. -/
theorem inRange_neg_natCast (d : Nat) :
    (if -2 ^ 63 ≤ -(d : Int) ∧ -(d : Int) ≤ 2 ^ 63 - 1 then -(d : Int) else 0) =
      if d ≤ 2 ^ 63 then -(d : Int) else 0 := by
  split_ifs <;> first | rfl | omega

/-- C10: `convertToInt64` applied to a text variant holding `s` returns `n`
when `s` is an optional single sign followed by one or more ASCII decimal
digits denoting a value `n` with `-2^63 ≤ n ≤ 2^63-1`, and returns 0 for every
other text, an out-of-range value included. -/
theorem convertToInt64_text {fl : GoFloat} (s : String) :
    convertToInt64 (some (Value.string s : Value fl)) =
      match signedDecimal? s.data with
      | some n => if -2 ^ 63 ≤ n ∧ n ≤ 2 ^ 63 - 1 then n else 0
      | none => 0 := by
  obtain ⟨cs⟩ := s
  cases cs with
  | nil => rfl
  | cons c cs =>
    simp only [convertToInt64]
    rw [ParseInt_value]
    simp only [signedDecimal?]
    by_cases hp : c = '+'
    · have hm : c ≠ '-' := by rw [hp]; decide
      simp only [if_pos hp, if_neg hm]
      by_cases hd : isDecimal cs = true
      · simp only [if_pos hd]
        exact (inRange_natCast _).symm
      · simp only [if_neg hd]
    · by_cases hm : c = '-'
      · simp only [if_neg hp, if_pos hm]
        by_cases hd : isDecimal cs = true
        · simp only [if_pos hd]
          exact (inRange_neg_natCast _).symm
        · simp only [if_neg hd]
      · simp only [if_neg hp, if_neg hm]
        by_cases hd : isDecimal (c :: cs) = true
        · simp only [if_pos hd]
          exact (inRange_natCast _).symm
        · simp only [if_neg hd]

/-! ## The decimal rendering read back -/

/-- The digit value of the byte `'0' + d`. -/
theorem digitChar_toNat (d : Nat) (h : d < 10) : (Char.ofNat (48 + d)).toNat - 48 = d := by
  interval_cases d <;> rfl

/-- The digit loop only prepends to its buffer. -/
theorem fmtDigits_append (fuel u : Nat) (buf : List Char) :
    fmtDigits fuel u buf = fmtDigits fuel u [] ++ buf := by
  induction fuel generalizing u buf with
  | zero => simp [fmtDigits]
  | succ fuel ih =>
    simp only [fmtDigits]
    split_ifs
    · rw [ih _ (_ :: buf), ih _ [_]]
      simp
    · simp

/-- Reading two runs of digits in a row. -/
theorem decimalFrom_append (acc : Nat) (xs ys : List Char) :
    decimalFrom acc (xs ++ ys) = decimalFrom (decimalFrom acc xs) ys := by
  simp [decimalFrom, List.foldl_append]

/-- With as many iterations allowed as the value itself, the digit loop
renders the value: reading its digits back gives `u`. -/
theorem decimalValue_fmtDigits (fuel u : Nat) (h : u ≤ fuel) :
    decimalValue (fmtDigits fuel u []) = u := by
  induction fuel generalizing u with
  | zero =>
    have hu : u = 0 := by omega
    subst hu
    rfl
  | succ fuel ih =>
    simp only [fmtDigits]
    split_ifs with h10
    · rw [fmtDigits_append]
      unfold decimalValue at ih ⊢
      rw [decimalFrom_append, ih (u / 10) (by omega)]
      simp only [decimalFrom, List.foldl_cons, List.foldl_nil]
      rw [digitChar_toNat _ (Nat.mod_lt _ (by decide))]
      omega
    · simp only [decimalValue, decimalFrom, List.foldl_cons, List.foldl_nil]
      rw [digitChar_toNat _ (by omega)]
      omega

/-- Reading back the rendering of a `uint64` gives the value. -/
theorem decimalValue_fmtUint (u : Nat) : decimalValue (fmtUint u).data = u :=
  decimalValue_fmtDigits u u (Nat.le_refl u)

/-! ## Evaluations -/

/-- The texts the spec names, evaluated: empty, negative, sign-prefixed,
fractional, padded and non-numeric text and `2^64` give 0. -/
theorem convertToUint64_text_samples :
    (["", "-5", "+5", "1.5", " 5", "5 ", "abc", "18446744073709551616", "007",
        "18446744073709551615"].map
      fun s => convertToUint64 (some (Value.string s : Value integralFloat))) =
      [0, 0, 0, 0, 0, 0, 0, 0, 7, 18446744073709551615] := by
  decide

/-- Signed texts evaluated: the two bounds are kept, the values next to them
and malformed text give 0. -/
theorem convertToInt64_text_samples :
    (["", "+", "-", "+-5", "1.5", "abc", "9223372036854775808", "-9223372036854775809",
        "99999999999999999999", "+42", "-0", "9223372036854775807",
        "-9223372036854775808"].map
      fun s => convertToInt64 (some (Value.string s : Value integralFloat))) =
      [0, 0, 0, 0, 0, 0, 0, 0, 0, 42, 0, 9223372036854775807, -9223372036854775808] := by
  decide

/-! ## The merge stage as a frame -/

/-- The loop body changes SessionGUID only, to a value fixed by SessionID and
the mapping. -/
theorem mergeBody_eq {fl : GoFloat} (g : SessionGUIDMapping) (m : CitrixEndpointMetric fl) :
    mergeBody g m = { m with SessionGUID := mergedGUID g m.SessionID } := by
  unfold mergeBody mergedGUID
  simp only [Sprintf_d_int64]
  by_cases h : m.SessionID = 0
  · simp [h]
  · simp only [h, ne_eq, not_false_eq_true, if_true, if_false]
    cases g.get (fmtInt m.SessionID) <;> rfl

/-- C16: the merge stage returns a sequence of the same length in the same
order; the record at each position is the input record at that position with
only SessionGUID replaced (the 27 acquired fields, SessionID included, are
kept), and the new SessionGUID is a function of that record's SessionID and
the mapping alone. -/
theorem mergeStage_frame {fl : GoFloat} (g : SessionGUIDMapping)
    (ms : List (CitrixEndpointMetric fl)) :
    (mergeStage g ms).length = ms.length ∧
      mergeStage g ms = ms.map (fun m => { m with SessionGUID := mergedGUID g m.SessionID }) ∧
      ∀ i : Nat, (mergeStage g ms)[i]? =
        (ms[i]?).map (fun m => { m with SessionGUID := mergedGUID g m.SessionID }) := by
  have h : mergeStage g ms =
      ms.map (fun m => { m with SessionGUID := mergedGUID g m.SessionID }) := by
    rw [mergeStage_eq_map]
    exact List.map_congr_left (fun m _ => mergeBody_eq g m)
  refine ⟨mergeStage_length g ms, h, fun i => ?_⟩
  rw [h, List.getElem?_map]

/-! ## The template of the line -/

/-- The digit loop never returns an empty text. -/
theorem fmtDigits_ne_nil (fuel u : Nat) (buf : List Char) : fmtDigits fuel u buf ≠ [] := by
  induction fuel generalizing u buf with
  | zero => simp [fmtDigits]
  | succ fuel ih =>
    simp only [fmtDigits]
    split_ifs
    · exact ih _ _
    · simp

/-- The rendering of a `uint64` is a non-empty run of decimal digits. -/
theorem isDecimal_fmtUint (u : Nat) : isDecimal (fmtUint u).data = true :=
  (isDecimal_iff _).2 ⟨fmtDigits_ne_nil u u [], fmtUint_isDigit u⟩

set_option maxRecDepth 100000 in
/-- C14: the line of a record is the fixed template: the 16 keys in the order
of the output contract, each followed by `=` and its field, the tokens joined
by single spaces; a text field stands verbatim, a float field in its `%v`
form, and an unsigned field as the non-empty run of decimal digits that
denotes it. -/
theorem metricLine_template {fl : GoFloat} (m : CitrixEndpointMetric fl) :
    metricLine m =
        "AvgBeaconLatency=" ++ fl.format m.AvgBeaconLatency ++
        " AvgThroughputBytesRcvd=" ++ fl.format m.AvgThroughputBytesRcvd ++
        " AvgThroughputBytesSent=" ++ fl.format m.AvgThroughputBytesSent ++
        " ClientTimestamp=" ++ fmtUint m.ClientTimestamp ++
        " GpuAvgUsage=" ++ fl.format m.GpuAvgUsage ++
        " GpuMaxUsage=" ++ fmtUint m.GpuMaxUsage ++
        " LinkSpeed=" ++ fmtUint m.LinkSpeed ++
        " MaxPrivilegedTime=" ++ fmtUint m.MaxPrivilegedTime ++
        " MaxProcessorTime=" ++ fmtUint m.MaxProcessorTime ++
        " MaxThroughputBytesRcvd=" ++ fmtUint m.MaxThroughputBytesRcvd ++
        " MaxThroughputBytesSent=" ++ fmtUint m.MaxThroughputBytesSent ++
        " MaxUserTime=" ++ fmtUint m.MaxUserTime ++
        " NetworkInterfaceType=" ++ m.NetworkInterfaceType ++
        " RamMaxUsage=" ++ fmtUint m.RamMaxUsage ++
        " SessionGUID=" ++ m.SessionGUID ++
        " SignalStrength=" ++ fmtUint m.SignalStrength ∧
      PrintMetricKeyValue m = metricLine m ++ "\n" ∧
      ∀ u : Nat, isDecimal (fmtUint u).data = true ∧ decimalValue (fmtUint u).data = u := by
  refine ⟨?_, rfl, fun u => ⟨isDecimal_fmtUint u, decimalValue_fmtUint u⟩⟩
  apply String.ext
  simp [metricLine, Sprintf, sprintfAux, Arg.render, Arg.fmtV, extraOperands]

/-! ## Round trip through decimal text -/

/-- The first character of the rendering of a `uint64` is a decimal digit. -/
theorem fmtUint_data_cons (u : Nat) :
    ∃ c cs, (fmtUint u).data = c :: cs ∧ c.isDigit = true := by
  cases h : (fmtUint u).data with
  | nil => exact absurd h (fmtDigits_ne_nil u u [])
  | cons c cs =>
    refine ⟨c, cs, rfl, ?_⟩
    apply fmtUint_isDigit u
    rw [h]
    exact List.mem_cons_self _ _

/-- Reading back the `%d` rendering of a non-negative `int64`. -/
theorem ParseInt_fmtInt_nonneg (i : Int) (h0 : 0 ≤ i) (h1 : i < 2 ^ 63) :
    (match ParseInt (fmtInt i) 10 64 with
      | (parsed, none) => parsed
      | (_, some _) => 0) = i := by
  have hu : toUint64 i = i.toNat := toUint64_of_nonneg h0 (by omega)
  have hf : fmtInt i = fmtUint i.toNat := by
    unfold fmtInt
    rw [if_neg (by omega), hu]
  obtain ⟨c, cs, hcs, hc⟩ := fmtUint_data_cons i.toNat
  have hmk : fmtInt i = String.mk (c :: cs) := by rw [hf, ← hcs]
  have hp : c ≠ '+' := by
    rintro rfl
    exact absurd hc (by decide)
  have hm : c ≠ '-' := by
    rintro rfl
    exact absurd hc (by decide)
  rw [hmk, ParseInt_value]
  simp only [if_neg hp, if_neg hm]
  have hdec : isDecimal (c :: cs) = true := by
    rw [← hcs]
    exact isDecimal_fmtUint _
  have hval : decimalValue (c :: cs) = i.toNat := by
    rw [← hcs]
    exact decimalValue_fmtUint _
  rw [if_pos hdec, hval, if_pos (by omega)]
  omega

/-- Reading back the `%d` rendering of a negative `int64`. -/
theorem ParseInt_fmtInt_neg (i : Int) (h0 : -2 ^ 63 ≤ i) (h1 : i < 0) :
    (match ParseInt (fmtInt i) 10 64 with
      | (parsed, none) => parsed
      | (_, some _) => 0) = i := by
  have hu : toUint64 (-i) = (-i).toNat := toUint64_of_nonneg (by omega) (by omega)
  have hf : fmtInt i = String.mk ('-' :: (fmtUint (-i).toNat).data) := by
    unfold fmtInt
    rw [if_pos h1, hu]
    rfl
  rw [hf, ParseInt_value]
  have hp : ('-' : Char) ≠ '+' := by decide
  simp only [if_neg hp, if_true]
  rw [if_pos (isDecimal_fmtUint _), decimalValue_fmtUint, if_pos (by omega)]
  omega

/-- C18: the decimal rendering of an unsigned 64-bit value is read back by
`convertToUint64` as that value, and the `%d` rendering of a signed 64-bit
value (the rendering of the merge key), the bounds `-2^63` and `2^63-1`
included, is read back by `convertToInt64` as that value. -/
theorem decimal_text_round_trip {fl : GoFloat} (n : Nat) (i : Int)
    (hn : n < 2 ^ 64) (hi : -2 ^ 63 ≤ i ∧ i ≤ 2 ^ 63 - 1) :
    convertToUint64 (some (Value.string (Sprintf "%v" [(Arg.uint64 n : Arg fl)]) : Value fl)) = n ∧
      convertToInt64 (some (Value.string (Sprintf "%d" [(Arg.int64 i : Arg fl)]) : Value fl)) = i := by
  have hv : Sprintf "%v" [(Arg.uint64 n : Arg fl)] = fmtUint n := by
    simp [Sprintf, sprintfAux, Arg.render, Arg.fmtV, extraOperands]
  constructor
  · rw [hv]
    simp only [convertToUint64]
    rw [ParseUint_of_decimal _ (isDecimal_fmtUint n), decimalValue_fmtUint, if_pos hn]
  · rw [Sprintf_d_int64]
    simp only [convertToInt64]
    by_cases h0 : 0 ≤ i
    · exact ParseInt_fmtInt_nonneg i h0 (by omega)
    · exact ParseInt_fmtInt_neg i hi.1 (by omega)

/-- C18, at the largest unsigned value and at the two signed bounds. -/
theorem decimal_text_round_trip_witness :
    (18446744073709551615 < 2 ^ 64 ∧
      (-2 ^ 63 ≤ (-9223372036854775808 : Int) ∧ (-9223372036854775808 : Int) ≤ 2 ^ 63 - 1) ∧
      convertToUint64 (some (Value.string
        (Sprintf "%v" [(Arg.uint64 18446744073709551615 : Arg integralFloat)]) :
          Value integralFloat)) = 18446744073709551615 ∧
      convertToInt64 (some (Value.string
        (Sprintf "%d" [(Arg.int64 (-9223372036854775808) : Arg integralFloat)]) :
          Value integralFloat)) = -9223372036854775808) ∧
    convertToInt64 (some (Value.string
        (Sprintf "%d" [(Arg.int64 9223372036854775807 : Arg integralFloat)]) :
          Value integralFloat)) = 9223372036854775807 :=
  ⟨⟨by decide, by decide,
      (decimal_text_round_trip 18446744073709551615 (-9223372036854775808)
        (by decide) (by decide)).1,
      (decimal_text_round_trip 18446744073709551615 (-9223372036854775808)
        (by decide) (by decide)).2⟩,
    (decimal_text_round_trip 0 9223372036854775807 (by decide) (by decide)).2⟩

/-! ## The output of `main` -/

/-- The print loop appends the output of each record, in order. -/
theorem printLoop_eq_foldl {fl : GoFloat} (l : List (CitrixEndpointMetric fl)) (out : String) :
    printLoop l out = (l.map PrintMetricKeyValue).foldl (fun r s => r ++ s) out := by
  induction l generalizing out with
  | nil => rfl
  | cons m l ih => simp only [printLoop, List.map_cons, List.foldl_cons, ih]

/-- The text of appended strings. -/
theorem foldl_append_data (l : List String) (out : String) :
    (l.foldl (fun r s => r ++ s) out).data = out.data ++ (l.map String.data).flatten := by
  induction l generalizing out with
  | nil => simp
  | cons a l ih => simp [ih, List.append_assoc]

/-- The pieces of a text made of lines without a line break, each followed by
a line break: the lines, then an empty piece. -/
theorem splitOn_newline_terminated (ls : List (List Char)) (h : ∀ l ∈ ls, '\n' ∉ l) :
    ((ls.map (fun l => l ++ ['\n'])).flatten).splitOn '\n' = ls ++ [[]] := by
  induction ls with
  | nil => rfl
  | cons l ls ih =>
    have hl : ∀ x ∈ l, ¬ (x == '\n') = true := by
      intro x hx hx'
      rw [beq_iff_eq] at hx'
      exact h l (List.mem_cons_self _ _) (hx' ▸ hx)
    have ih' := ih (fun l' hl' => h l' (List.mem_cons_of_mem _ hl'))
    simp only [List.map_cons, List.flatten_cons, List.append_assoc, List.singleton_append,
      List.cons_append]
    unfold List.splitOn at ih' ⊢
    rw [List.splitOnP_first _ _ hl '\n' (by simp), List.nil_append, ih']

set_option maxRecDepth 100000 in
/-- No line break in the line of a record whose text fields hold none. -/
theorem metricLine_no_newline {fl : GoFloat} (m : CitrixEndpointMetric fl)
    (hfmt : ∀ x : fl.F64, '\n' ∉ (fl.format x).data)
    (hnet : '\n' ∉ m.NetworkInterfaceType.data) (hguid : '\n' ∉ m.SessionGUID.data) :
    '\n' ∉ (metricLine m).data := by
  rw [metricLine_data]
  simp [List.intercalate, hfmt, fmtUint_no_newline, hnet, hguid]

set_option maxRecDepth 100000 in
/-- C11 as stated fails: a record whose NetworkInterfaceType holds a line
break is printed as two newline-terminated lines, so one record gives an
output of two lines. -/
theorem mainOutput_lines_counterexample :
    newlineTerminatedLines (mainOutput none [brokenLineRecord]) =
        ["AvgBeaconLatency=0 AvgThroughputBytesRcvd=0 AvgThroughputBytesSent=0 ClientTimestamp=0 GpuAvgUsage=0 GpuMaxUsage=0 LinkSpeed=0 MaxPrivilegedTime=0 MaxProcessorTime=0 MaxThroughputBytesRcvd=0 MaxThroughputBytesSent=0 MaxUserTime=0 NetworkInterfaceType=Wi",
         "Fi RamMaxUsage=0 SessionGUID=No GUID found for SessionID SignalStrength=0"] ∧
      (newlineTerminatedLines (mainOutput none [brokenLineRecord])).length ≠
        [brokenLineRecord].length := by
  decide

/-- C11, amended: the output of `main` is the concatenation, in acquisition
order, of the line of each record with its merged SessionGUID, each followed
by a line break; when no NetworkInterfaceType and no merged SessionGUID holds
a line break (and the rendering of a float holds none, as Go's does), these
are the newline-terminated lines of the output, exactly one per record, and
nothing follows the last line break. -/
theorem mainOutput_lines {fl : GoFloat} (g : SessionGUIDMapping)
    (ms : List (CitrixEndpointMetric fl)) :
    mainOutput g ms = String.join (ms.map (fun m => metricLine (mergeBody g m) ++ "\n")) ∧
      ((∀ x : fl.F64, '\n' ∉ (fl.format x).data) →
        (∀ m ∈ ms, '\n' ∉ m.NetworkInterfaceType.data ∧
          '\n' ∉ (mergeBody g m).SessionGUID.data) →
        newlineTerminatedLines (mainOutput g ms) = ms.map (fun m => metricLine (mergeBody g m)) ∧
          (newlineTerminatedLines (mainOutput g ms)).length = ms.length ∧
          ((mainOutput g ms).data.splitOn '\n').getLast? = some []) := by
  have hout : mainOutput g ms =
      String.join (ms.map (fun m => metricLine (mergeBody g m) ++ "\n")) := by
    unfold mainOutput String.join
    rw [printLoop_eq_foldl, mergeStage_eq_map, List.map_map]
    rfl
  refine ⟨hout, fun hfmt hrec => ?_⟩
  have hdata : (mainOutput g ms).data =
      ((ms.map (fun m => (metricLine (mergeBody g m)).data)).map
        (fun l => l ++ ['\n'])).flatten := by
    rw [hout]
    unfold String.join
    rw [foldl_append_data]
    simp [List.map_map, Function.comp_def]
  have hclean : ∀ l ∈ ms.map (fun m => (metricLine (mergeBody g m)).data), '\n' ∉ l := by
    intro l hl
    obtain ⟨m, hm, rfl⟩ := List.mem_map.1 hl
    have hnet : '\n' ∉ (mergeBody g m).NetworkInterfaceType.data := by
      rw [mergeBody_eq]
      exact (hrec m hm).1
    exact metricLine_no_newline _ hfmt hnet (hrec m hm).2
  have hsplit := splitOn_newline_terminated _ hclean
  have hlines : newlineTerminatedLines (mainOutput g ms) =
      ms.map (fun m => metricLine (mergeBody g m)) := by
    unfold newlineTerminatedLines
    rw [hdata, hsplit, List.dropLast_concat, List.map_map]
    exact List.map_congr_left (fun m _ => mk_data _)
  refine ⟨hlines, ?_, ?_⟩
  · rw [hlines, List.length_map]
  · rw [hdata, hsplit, List.getLast?_concat]

set_option maxRecDepth 100000 in
/-- C11 amended, at the end-to-end example: row A of session 5 and row B
without a session, with the mapping {"5": "GUID-ABC"}, give exactly two
lines, the first with `SessionGUID=GUID-ABC`, the second with
`SessionGUID=No SessionID available`. -/
theorem mainOutput_lines_witness :
    (∀ x : integralFloat.F64, '\n' ∉ (integralFloat.format x).data) ∧
      (∀ m ∈ [rowA, rowB], '\n' ∉ m.NetworkInterfaceType.data ∧
        '\n' ∉ (mergeBody (some [("5", "GUID-ABC")]) m).SessionGUID.data) ∧
      newlineTerminatedLines (mainOutput (some [("5", "GUID-ABC")]) [rowA, rowB]) =
        ["AvgBeaconLatency=12 AvgThroughputBytesRcvd=2048 AvgThroughputBytesSent=1024 ClientTimestamp=1700000000 GpuAvgUsage=30 GpuMaxUsage=55 LinkSpeed=1000 MaxPrivilegedTime=9 MaxProcessorTime=21 MaxThroughputBytesRcvd=4096 MaxThroughputBytesSent=3072 MaxUserTime=12 NetworkInterfaceType=WiFi RamMaxUsage=70 SessionGUID=GUID-ABC SignalStrength=80",
         "AvgBeaconLatency=0 AvgThroughputBytesRcvd=0 AvgThroughputBytesSent=0 ClientTimestamp=0 GpuAvgUsage=0 GpuMaxUsage=0 LinkSpeed=100 MaxPrivilegedTime=0 MaxProcessorTime=0 MaxThroughputBytesRcvd=0 MaxThroughputBytesSent=0 MaxUserTime=0 NetworkInterfaceType= RamMaxUsage=0 SessionGUID=No SessionID available SignalStrength=0"] :=
  ⟨fun x => (integralFloat_format_clean x).2,
    by
      intro m hm
      simp only [List.mem_cons, List.mem_singleton, List.not_mem_nil, or_false] at hm
      rcases hm with rfl | rfl <;> decide,
    ((mainOutput_lines (some [("5", "GUID-ABC")]) [rowA, rowB]).2
      (fun x => (integralFloat_format_clean x).2)
      (by
        intro m hm
        simp only [List.mem_cons, List.mem_singleton, List.not_mem_nil, or_false] at hm
        rcases hm with rfl | rfl <;> decide)).1.trans (by decide)⟩

/-! ## The records of a run -/

/-- The item loop returns an error with no records, or no error. -/
theorem itemLoop_err_or_nil {fl : GoFloat} (p : Provider fl) (results : Nat) (k i : Nat)
    (s : Handles) (metrics : List (CitrixEndpointMetric fl)) :
    (itemLoop p results k i s metrics).err = none ∨
      (itemLoop p results k i s metrics).metrics = [] := by
  induction k generalizing i s metrics with
  | zero => exact Or.inl rfl
  | succ k ih =>
    simp only [itemLoop]
    cases p.ItemIndex results i with
    | error e => exact Or.inr rfl
    | ok item => exact ih _ _ _

/-- The item loop when every fetch succeeds: one record per index, in order,
after the records already built. -/
theorem itemLoop_ok {fl : GoFloat} (p : Provider fl) (results : Nat) (items : Nat → Nat)
    (k i : Nat) (s : Handles) (metrics : List (CitrixEndpointMetric fl))
    (h : ∀ j, j < k → p.ItemIndex results (i + j) = .ok (items (i + j))) :
    (itemLoop p results k i s metrics).err = none ∧
      (itemLoop p results k i s metrics).metrics =
        metrics ++ (List.range k).map (fun j => buildMetric (p.GetProperty (items (i + j)))) := by
  induction k generalizing i s metrics with
  | zero => exact ⟨rfl, by simp [itemLoop, Outcome.ret]⟩
  | succ k ih =>
    have h0 : p.ItemIndex results i = .ok (items i) := by simpa using h 0 (Nat.succ_pos k)
    have hrest : ∀ j, j < k → p.ItemIndex results (i + 1 + j) = .ok (items (i + 1 + j)) := by
      intro j hj
      have := h (j + 1) (by omega)
      rwa [show i + (j + 1) = i + 1 + j by omega] at this
    simp only [itemLoop, h0]
    obtain ⟨h1, h2⟩ := ih (i + 1) ((s.obtain (.item i (items i))).defer (.item i (items i)))
      (metrics ++ [buildMetric (p.GetProperty (items i))]) hrest
    refine ⟨h1, ?_⟩
    rw [h2, List.range_succ_eq_map, List.map_cons, List.map_map, List.append_assoc]
    simp only [List.singleton_append, Nat.add_zero]
    congr 2
    apply List.map_congr_left
    intro j _
    simp only [Function.comp_apply]
    rw [show i + 1 + j = i + j.succ by omega]

/-- The item loop when the fetch of an index fails after the fetches before
it succeeded: the error of that fetch and no record. -/
theorem itemLoop_fail {fl : GoFloat} (p : Provider fl) (results : Nat) (k i j : Nat)
    (s : Handles) (metrics : List (CitrixEndpointMetric fl)) (e : String) (hj : j < k)
    (hok : ∀ j', j' < j → ∃ item, p.ItemIndex results (i + j') = .ok item)
    (hfail : p.ItemIndex results (i + j) = .error e) :
    (itemLoop p results k i s metrics).metrics = [] ∧
      (itemLoop p results k i s metrics).err =
        some (Errorf "failed to get result item %d: %v"
          [(Arg.int64 ((i + j : Nat) : Int) : Arg fl), .string e]) := by
  induction k generalizing i j s metrics with
  | zero => omega
  | succ k ih =>
    cases j with
    | zero =>
      rw [Nat.add_zero] at hfail
      simp only [itemLoop, hfail, Nat.add_zero]
      exact ⟨rfl, rfl⟩
    | succ j =>
      obtain ⟨item, hitem⟩ := hok 0 (Nat.succ_pos j)
      rw [Nat.add_zero] at hitem
      simp only [itemLoop, hitem]
      have := ih (i + 1) j ((s.obtain (.item i item)).defer (.item i item))
        (metrics ++ [buildMetric (p.GetProperty item)]) (by omega)
        (fun j' hj' => by
          have := hok (j' + 1) (by omega)
          rwa [show i + (j' + 1) = i + 1 + j' by omega] at this)
        (by rwa [show i + (j + 1) = i + 1 + j by omega] at hfail)
      rwa [show i + 1 + j = i + (j + 1) by omega] at this

/-- `GetCitrixMetrics` returns an error with no records, or no error. -/
theorem GetCitrixMetrics_err_or_nil {fl : GoFloat} (p : Provider fl) :
    (GetCitrixMetrics p).err = none ∨ (GetCitrixMetrics p).metrics = [] := by
  unfold GetCitrixMetrics
  cases p.CoInitializeEx with
  | some e => exact Or.inr rfl
  | none =>
    dsimp only
    cases p.CreateObject with
    | error e => exact Or.inr rfl
    | ok unknown =>
      dsimp only
      cases p.QueryInterface unknown with
      | error e => exact Or.inr rfl
      | ok wmi =>
        dsimp only
        cases p.ConnectServer wmi with
        | error e => exact Or.inr rfl
        | ok service =>
          dsimp only
          cases p.ExecQuery service with
          | error e => exact Or.inr rfl
          | ok res =>
            dsimp only
            cases p.Count res with
            | error e => exact Or.inr rfl
            | ok count => exact itemLoop_err_or_nil _ _ _ _ _ _

/-- `GetCitrixMetrics` once the count is read: the item loop. -/
theorem GetCitrixMetrics_of_count {fl : GoFloat} (p : Provider fl)
    (unknown wmi service res : Nat) (count : Int)
    (h0 : p.CoInitializeEx = none) (h1 : p.CreateObject = .ok unknown)
    (h2 : p.QueryInterface unknown = .ok wmi) (h3 : p.ConnectServer wmi = .ok service)
    (h4 : p.ExecQuery service = .ok res) (h5 : p.Count res = .ok count) :
    ∃ s : Handles, GetCitrixMetrics p = itemLoop p res count.toNat 0 s [] := by
  unfold GetCitrixMetrics
  simp only [h0, h1, h2, h3, h4, h5]
  exact ⟨_, rfl⟩

/-- Before a fetch that fails there is a first fetch that fails. -/
theorem first_failing_fetch {fl : GoFloat} (p : Provider fl) (results : Nat) :
    ∀ (i : Nat) (e : String), p.ItemIndex results i = .error e →
      ∃ (j : Nat) (e1 : String), j ≤ i ∧ p.ItemIndex results j = .error e1 ∧
        ∀ j1, j1 < j → ∃ item, p.ItemIndex results j1 = .ok item := by
  intro i
  induction i using Nat.strong_induction_on with
  | _ i ih =>
    intro e hfail
    by_cases hall : ∀ j1, j1 < i → ∃ item, p.ItemIndex results j1 = .ok item
    · exact ⟨i, e, le_refl i, hfail, hall⟩
    · simp only [not_forall] at hall
      obtain ⟨j1, hj1, hno⟩ := hall
      cases hj : p.ItemIndex results j1 with
      | ok item => exact absurd ⟨item, hj⟩ hno
      | error e0 =>
        obtain ⟨j, e1, hle, hf, hbefore⟩ := ih j1 hj1 e0 hj
        exact ⟨j, e1, by omega, hf, hbefore⟩

/-- C12: `GetCitrixMetrics` never returns an error together with records; and
a failure of any call that establishes the connection (the OLE
initialisation, the creation of the locator, the query of its interface, the
connection to the service), of the query, of the read of the count, or of the
fetch of the item of an index below the count (the items before it fetched
and built), the calls before it having succeeded, makes it return the error
of that step together with no records. A fetch that fails at any index below
the count, whatever the fetches before it did, makes it return no records
and the error of the first fetch that failed. -/
theorem GetCitrixMetrics_fatal {fl : GoFloat} (p : Provider fl) :
    ((GetCitrixMetrics p).err = none ∨ (GetCitrixMetrics p).metrics = []) ∧
      (∀ e, p.CoInitializeEx = some e →
        (GetCitrixMetrics p).metrics = [] ∧
        (GetCitrixMetrics p).err =
          some (Errorf "failed to initialize OLE: %v" [(Arg.string e : Arg fl)])) ∧
      (∀ e, p.CoInitializeEx = none → p.CreateObject = .error e →
        (GetCitrixMetrics p).metrics = [] ∧
        (GetCitrixMetrics p).err =
          some (Errorf "failed to create WMI locator object: %v" [(Arg.string e : Arg fl)])) ∧
      (∀ unknown e, p.CoInitializeEx = none → p.CreateObject = .ok unknown →
        p.QueryInterface unknown = .error e →
        (GetCitrixMetrics p).metrics = [] ∧
        (GetCitrixMetrics p).err =
          some (Errorf "failed to get WMI interface: %v" [(Arg.string e : Arg fl)])) ∧
      ∀ unknown wmi : Nat, p.CoInitializeEx = none → p.CreateObject = .ok unknown →
        p.QueryInterface unknown = .ok wmi →
        (∀ e, p.ConnectServer wmi = .error e →
          (GetCitrixMetrics p).metrics = [] ∧
          (GetCitrixMetrics p).err =
            some (Errorf "failed to connect to WMI service: %v" [(Arg.string e : Arg fl)])) ∧
        (∀ service e, p.ConnectServer wmi = .ok service → p.ExecQuery service = .error e →
          (GetCitrixMetrics p).metrics = [] ∧
          (GetCitrixMetrics p).err =
            some (Errorf "failed to execute WMI query: %v" [(Arg.string e : Arg fl)])) ∧
        (∀ service res e, p.ConnectServer wmi = .ok service → p.ExecQuery service = .ok res →
          p.Count res = .error e →
          (GetCitrixMetrics p).metrics = [] ∧
          (GetCitrixMetrics p).err =
            some (Errorf "failed to get result count: %v" [(Arg.string e : Arg fl)])) ∧
        (∀ service res count (i : Nat) e, p.ConnectServer wmi = .ok service →
          p.ExecQuery service = .ok res → p.Count res = .ok count → (i : Int) < count →
          (∀ j, j < i → ∃ item, p.ItemIndex res j = .ok item) →
          p.ItemIndex res i = .error e →
          (GetCitrixMetrics p).metrics = [] ∧
          (GetCitrixMetrics p).err =
            some (Errorf "failed to get result item %d: %v"
              [(Arg.int64 (i : Int) : Arg fl), .string e])) ∧
        (∀ service res count (i : Nat) e, p.ConnectServer wmi = .ok service →
          p.ExecQuery service = .ok res → p.Count res = .ok count → (i : Int) < count →
          p.ItemIndex res i = .error e →
          (GetCitrixMetrics p).metrics = [] ∧
          ∃ (j : Nat) (e1 : String), j ≤ i ∧ p.ItemIndex res j = .error e1 ∧
            (GetCitrixMetrics p).err =
              some (Errorf "failed to get result item %d: %v"
                [(Arg.int64 (j : Int) : Arg fl), .string e1])) := by
  refine ⟨GetCitrixMetrics_err_or_nil p, ?_, ?_, ?_,
    fun unknown wmi h0 h1 h2 => ⟨?_, ?_, ?_, ?_, ?_⟩⟩
  · intro e h0
    unfold GetCitrixMetrics
    simp only [h0]
    exact ⟨rfl, rfl⟩
  · intro e h0 h1
    unfold GetCitrixMetrics
    simp only [h0, h1]
    exact ⟨rfl, rfl⟩
  · intro unknown e h0 h1 h2
    unfold GetCitrixMetrics
    simp only [h0, h1, h2]
    exact ⟨rfl, rfl⟩
  · intro e h3
    unfold GetCitrixMetrics
    simp only [h0, h1, h2, h3]
    exact ⟨rfl, rfl⟩
  · intro service e h3 h4
    unfold GetCitrixMetrics
    simp only [h0, h1, h2, h3, h4]
    exact ⟨rfl, rfl⟩
  · intro service res e h3 h4 h5
    unfold GetCitrixMetrics
    simp only [h0, h1, h2, h3, h4, h5]
    exact ⟨rfl, rfl⟩
  · intro service res count i e h3 h4 h5 hi hok hfail
    obtain ⟨s, hs⟩ := GetCitrixMetrics_of_count p unknown wmi service res count h0 h1 h2 h3 h4 h5
    rw [hs]
    have := itemLoop_fail p res count.toNat 0 i s [] e (by omega)
      (fun j hj => by simpa using hok j hj) (by simpa using hfail)
    simpa using this
  · intro service res count i e h3 h4 h5 hi hfail
    obtain ⟨s, hs⟩ := GetCitrixMetrics_of_count p unknown wmi service res count h0 h1 h2 h3 h4 h5
    obtain ⟨j, e1, hle, hf, hbefore⟩ := first_failing_fetch p res i e hfail
    rw [hs]
    have := itemLoop_fail p res count.toNat 0 j s [] e1 (by omega)
      (fun j1 hj1 => by simpa using hbefore j1 hj1) (by simpa using hf)
    exact ⟨this.1, j, e1, hle, hf, by simpa using this.2⟩

/-- C17: when the connection, the query, the count read and every item fetch
succeed, `GetCitrixMetrics` returns no error and one record per index below
the count, in the order of the result set, the record of index `i` built
from the item of index `i`; for a count `c ≥ 0` these are exactly `c`
records, and for `c ≤ 0` the sequence is empty. -/
theorem GetCitrixMetrics_records {fl : GoFloat} (p : Provider fl)
    (unknown wmi service res : Nat) (count : Int) (items : Nat → Nat)
    (h0 : p.CoInitializeEx = none) (h1 : p.CreateObject = .ok unknown)
    (h2 : p.QueryInterface unknown = .ok wmi) (h3 : p.ConnectServer wmi = .ok service)
    (h4 : p.ExecQuery service = .ok res) (h5 : p.Count res = .ok count)
    (hitems : ∀ i : Nat, (i : Int) < count → p.ItemIndex res i = .ok (items i)) :
    (GetCitrixMetrics p).err = none ∧
      (GetCitrixMetrics p).metrics =
        (List.range count.toNat).map (fun i => buildMetric (p.GetProperty (items i))) ∧
      (0 ≤ count → ((GetCitrixMetrics p).metrics.length : Int) = count) ∧
      (count ≤ 0 → (GetCitrixMetrics p).metrics = []) := by
  obtain ⟨s, hs⟩ := GetCitrixMetrics_of_count p unknown wmi service res count h0 h1 h2 h3 h4 h5
  obtain ⟨he, hm⟩ := itemLoop_ok p res items count.toNat 0 s []
    (fun j hj => by simpa using hitems j (by omega))
  rw [hs]
  have hm' : (itemLoop p res count.toNat 0 s []).metrics =
      (List.range count.toNat).map (fun i => buildMetric (p.GetProperty (items i))) := by
    simpa using hm
  refine ⟨he, hm', fun hc => ?_, fun hc => ?_⟩
  · rw [hm', List.length_map, List.length_range]
    omega
  · rw [hm', show count.toNat = 0 by omega]
    rfl

/-- C17, at a provider with two rows. -/
theorem GetCitrixMetrics_records_witness :
    (twoRowProvider.CoInitializeEx = none ∧ twoRowProvider.CreateObject = .ok 1 ∧
      twoRowProvider.QueryInterface 1 = .ok 2 ∧ twoRowProvider.ConnectServer 2 = .ok 3 ∧
      twoRowProvider.ExecQuery 3 = .ok 4 ∧ twoRowProvider.Count 4 = .ok 2 ∧
      (∀ i : Nat, (i : Int) < 2 → twoRowProvider.ItemIndex 4 i = .ok (10 + i))) ∧
      (GetCitrixMetrics twoRowProvider).err = none ∧
      (GetCitrixMetrics twoRowProvider).metrics =
        [buildMetric (twoRowProvider.GetProperty 10), buildMetric (twoRowProvider.GetProperty 11)] ∧
      ((GetCitrixMetrics twoRowProvider).metrics.map (fun m => m.SessionID)) = [5, 0] :=
  ⟨⟨rfl, rfl, rfl, rfl, rfl, rfl, fun _ _ => rfl⟩,
    (GetCitrixMetrics_records twoRowProvider 1 2 3 4 2 (fun i => 10 + i)
      rfl rfl rfl rfl rfl rfl (fun _ _ => rfl)).1,
    (GetCitrixMetrics_records twoRowProvider 1 2 3 4 2 (fun i => 10 + i)
      rfl rfl rfl rfl rfl rfl (fun _ _ => rfl)).2.1,
    by decide⟩

/-- C12, at a provider whose fetch of index 1 fails after the item of index 0
was fetched and built, and at a provider whose OLE initialisation fails. -/
theorem GetCitrixMetrics_fatal_witness :
    ((failingItemProvider.CoInitializeEx = none ∧ failingItemProvider.CreateObject = .ok 1 ∧
      failingItemProvider.QueryInterface 1 = .ok 2 ∧
      failingItemProvider.ConnectServer 2 = .ok 3 ∧ failingItemProvider.ExecQuery 3 = .ok 4 ∧
      failingItemProvider.Count 4 = .ok 3 ∧ ((1 : Nat) : Int) < 3 ∧
      (∀ j, j < 1 → ∃ item, failingItemProvider.ItemIndex 4 j = .ok item) ∧
      failingItemProvider.ItemIndex 4 1 = .error "RPC failed") ∧
      (GetCitrixMetrics failingItemProvider).metrics = [] ∧
      (GetCitrixMetrics failingItemProvider).err =
        some "failed to get result item 1: RPC failed") ∧
    (unavailableProvider.CoInitializeEx = some "OLE unavailable" ∧
      (GetCitrixMetrics unavailableProvider).metrics = [] ∧
      (GetCitrixMetrics unavailableProvider).err =
        some "failed to initialize OLE: OLE unavailable") :=
  ⟨⟨⟨rfl, rfl, rfl, rfl, rfl, rfl, by decide,
      fun j hj => ⟨10 + j, by
        have hj0 : j = 0 := by omega
        subst hj0
        rfl⟩, rfl⟩,
    ((GetCitrixMetrics_fatal failingItemProvider).2.2.2.2 1 2 rfl rfl rfl).2.2.2.1 3 4 3 1
      "RPC failed" rfl rfl rfl (by decide)
      (fun j hj => ⟨10 + j, by
        have hj0 : j = 0 := by omega
        subst hj0
        rfl⟩) rfl |>.1,
    (((GetCitrixMetrics_fatal failingItemProvider).2.2.2.2 1 2 rfl rfl rfl).2.2.2.1 3 4 3 1
      "RPC failed" rfl rfl rfl (by decide)
      (fun j hj => ⟨10 + j, by
        have hj0 : j = 0 := by omega
        subst hj0
        rfl⟩) rfl).2.trans (by decide)⟩,
    ⟨rfl, ((GetCitrixMetrics_fatal unavailableProvider).2.1 "OLE unavailable" rfl).1,
      ((GetCitrixMetrics_fatal unavailableProvider).2.1 "OLE unavailable" rfl).2.trans
        (by decide)⟩⟩

/-! ## The handles of a run -/

/-- The handles when the item loop returns: the items it fetched are added to
what was obtained, and everything deferred is released, the latest first. -/
theorem itemLoop_handles {fl : GoFloat} (p : Provider fl) (results : Nat) (k i : Nat)
    (s : Handles) (metrics : List (CitrixEndpointMetric fl)) :
    (itemLoop p results k i s metrics).handles =
      { acquired := s.acquired ++ fetchedItems p results k i,
        deferred := [],
        released := s.released ++ ((fetchedItems p results k i).reverse ++ s.deferred) } := by
  induction k generalizing i s metrics with
  | zero => simp [itemLoop, fetchedItems, Outcome.ret, Handles.runDeferred]
  | succ k ih =>
    simp only [itemLoop, fetchedItems]
    cases p.ItemIndex results i with
    | error e => simp [Outcome.ret, Handles.runDeferred]
    | ok item =>
      simp only [ih]
      simp [Handles.obtain, Handles.defer]

/-- The items the loop fetches carry indices from `i` on. -/
theorem mem_fetchedItems {fl : GoFloat} (p : Provider fl) (results : Nat) (k i : Nat)
    (r : Resource) (h : r ∈ fetchedItems p results k i) :
    ∃ j item, r = .item j item ∧ i ≤ j := by
  induction k generalizing i with
  | zero => simp [fetchedItems] at h
  | succ k ih =>
    simp only [fetchedItems] at h
    cases hi : p.ItemIndex results i with
    | error e => simp [hi] at h
    | ok item =>
      simp only [hi, List.mem_cons] at h
      rcases h with rfl | h
      · exact ⟨i, item, rfl, Nat.le_refl i⟩
      · obtain ⟨j, it, hj, hle⟩ := ih (i + 1) h
        exact ⟨j, it, hj, by omega⟩

/-- No item is fetched twice. -/
theorem fetchedItems_nodup {fl : GoFloat} (p : Provider fl) (results : Nat) (k i : Nat) :
    (fetchedItems p results k i).Nodup := by
  induction k generalizing i with
  | zero => simp [fetchedItems]
  | succ k ih =>
    simp only [fetchedItems]
    cases p.ItemIndex results i with
    | error e => simp
    | ok item =>
      refine List.nodup_cons.2 ⟨fun hmem => ?_, ih (i + 1)⟩
      obtain ⟨j, it, hj, hle⟩ := mem_fetchedItems p results k (i + 1) _ hmem
      cases hj
      omega

/-- The handles when `GetCitrixMetrics` returns. -/
theorem GetCitrixMetrics_handles {fl : GoFloat} (p : Provider fl) :
    (GetCitrixMetrics p).handles =
      { acquired := obtained p, deferred := [], released := (obtained p).reverse } := by
  unfold GetCitrixMetrics obtained
  cases p.CoInitializeEx with
  | some e => rfl
  | none =>
    dsimp only
    cases p.CreateObject with
    | error e => rfl
    | ok unknown =>
      dsimp only
      cases p.QueryInterface unknown with
      | error e => rfl
      | ok wmi =>
        dsimp only
        cases p.ConnectServer wmi with
        | error e => rfl
        | ok service =>
          dsimp only
          cases p.ExecQuery service with
          | error e => rfl
          | ok res =>
            dsimp only
            cases p.Count res with
            | error e => rfl
            | ok count =>
              simp only [itemLoop_handles]
              simp [Handles.obtain, Handles.defer]

/-- Nothing is obtained twice in a run. -/
theorem obtained_nodup {fl : GoFloat} (p : Provider fl) : (obtained p).Nodup := by
  unfold obtained
  cases p.CoInitializeEx with
  | some e => simp
  | none =>
    dsimp only
    cases p.CreateObject with
    | error e => simp
    | ok unknown =>
      dsimp only
      cases p.QueryInterface unknown with
      | error e => simp
      | ok wmi =>
        dsimp only
        cases p.ConnectServer wmi with
        | error e => simp
        | ok service =>
          dsimp only
          cases p.ExecQuery service with
          | error e => simp
          | ok res =>
            dsimp only
            cases p.Count res with
            | error e => simp
            | ok count =>
              have hn := fetchedItems_nodup p res count.toNat 0
              have hm : ∀ r : Resource, (∀ j item, r ≠ .item j item) →
                  r ∉ fetchedItems p res count.toNat 0 := by
                intro r hr hmem
                obtain ⟨j, item, h, _⟩ := mem_fetchedItems p res count.toNat 0 r hmem
                exact hr j item h
              simp [hn, hm .ole (by simp), hm (.locator unknown) (by simp),
                hm (.dispatch wmi) (by simp), hm (.service service) (by simp),
                hm (.results res) (by simp)]

/-- C19: when `GetCitrixMetrics` returns, on the normal path and on every
early return alike, no deferred release is left pending and what was released
is what was obtained (the OLE initialisation, the locator, the dispatch
interface, the service, the result set and every item fetched so far), in
reverse order; nothing is obtained twice, so each resource obtained is
released exactly once and nothing else is released. -/
theorem GetCitrixMetrics_releases {fl : GoFloat} (p : Provider fl) :
    (GetCitrixMetrics p).handles.acquired = obtained p ∧
      (GetCitrixMetrics p).handles.deferred = [] ∧
      (GetCitrixMetrics p).handles.released = (obtained p).reverse ∧
      (obtained p).Nodup ∧
      ∀ r : Resource,
        (GetCitrixMetrics p).handles.released.count r = if r ∈ obtained p then 1 else 0 := by
  rw [GetCitrixMetrics_handles]
  refine ⟨rfl, rfl, rfl, obtained_nodup p, fun r => ?_⟩
  simp only [List.count_reverse]
  split_ifs with h
  · exact List.count_eq_one_of_mem (obtained_nodup p) h
  · exact List.count_eq_zero_of_not_mem h

/-- The handles of a run whose fetch of index 1 fails: the OLE initialisation,
the four handles and the item of index 0 were obtained, and all six are
released, the item first and the OLE initialisation last. -/
theorem GetCitrixMetrics_handles_sample :
    (GetCitrixMetrics failingItemProvider).handles =
      { acquired := [.ole, .locator 1, .dispatch 2, .service 3, .results 4, .item 0 10],
        deferred := [],
        released := [.item 0 10, .results 4, .service 3, .dispatch 2, .locator 1, .ole] } := by
  decide

/-! ## The record of one row -/

/-- A read that assigns other fields leaves a field as it is. -/
theorem readProperty_other {fl : GoFloat} {α : Type} (proj : CitrixEndpointMetric fl → α)
    (read : Except String (Value fl))
    (assign : Value fl → CitrixEndpointMetric fl → CitrixEndpointMetric fl)
    (metric : CitrixEndpointMetric fl) (h : ∀ val m, proj (assign val m) = proj m) :
    proj (readProperty read assign metric) = proj metric := by
  cases read with
  | error e => rfl
  | ok val => exact h val metric

/-- A read that assigns a field still at its default gives it the coercion of
the value read, and leaves it at its default when the read fails. -/
theorem readProperty_self {fl : GoFloat} {α : Type} (proj : CitrixEndpointMetric fl → α)
    (read : Except String (Value fl))
    (assign : Value fl → CitrixEndpointMetric fl → CitrixEndpointMetric fl)
    (metric : CitrixEndpointMetric fl) (coerce : Value fl → α) (dflt : α)
    (h : ∀ val m, proj m = dflt → proj (assign val m) = coerce val)
    (hm : proj metric = dflt) :
    proj (readProperty read assign metric) = readOr read coerce dflt := by
  cases read with
  | error e => exact hm
  | ok val => exact h val metric hm

set_option maxHeartbeats 1000000 in
/-- The record built for one row, field by field: each field is the coercion
of the value read for its property, or its default when that read fails;
SessionGUID is left empty. -/
theorem buildMetric_fields {fl : GoFloat} (read : String → Except String (Value fl)) :
      (buildMetric read).AvgBeaconLatency =
        readOr (read "AvgBeaconLatency") (fun val => convertToFloat64 (some val)) fl.zero ∧
      (buildMetric read).AvgPrivilegedTime =
        readOr (read "AvgPrivilegedTime") (fun val => convertToFloat64 (some val)) fl.zero ∧
      (buildMetric read).AvgProcessorTime =
        readOr (read "AvgProcessorTime") (fun val => convertToFloat64 (some val)) fl.zero ∧
      (buildMetric read).AvgThroughputBytesRcvd =
        readOr (read "AvgThroughputBytesRcvd") (fun val => convertToFloat64 (some val)) fl.zero ∧
      (buildMetric read).AvgThroughputBytesSent =
        readOr (read "AvgThroughputBytesSent") (fun val => convertToFloat64 (some val)) fl.zero ∧
      (buildMetric read).AvgUserTime =
        readOr (read "AvgUserTime") (fun val => convertToFloat64 (some val)) fl.zero ∧
      (buildMetric read).City =
        readOr (read "City") Value.ToString "" ∧
      (buildMetric read).ClientTimestamp =
        readOr (read "ClientTimestamp") (fun val => convertToUint64 (some val)) 0 ∧
      (buildMetric read).Country =
        readOr (read "Country") Value.ToString "" ∧
      (buildMetric read).EndpointIP =
        readOr (read "EndpointIP") Value.ToString "" ∧
      (buildMetric read).GpuAvgUsage =
        readOr (read "GpuAvgUsage") (fun val => convertToFloat64 (some val)) fl.zero ∧
      (buildMetric read).GpuMaxUsage =
        readOr (read "GpuMaxUsage") (fun val => convertToUint64 (some val)) 0 ∧
      (buildMetric read).ISP =
        readOr (read "ISP") Value.ToString "" ∧
      (buildMetric read).LatencyUnit =
        readOr (read "LatencyUnit") Value.ToString "" ∧
      (buildMetric read).LinkSpeed =
        readOr (read "LinkSpeed") (fun val => convertToUint64 (some val)) 0 ∧
      (buildMetric read).MaxPrivilegedTime =
        readOr (read "MaxPrivilegedTime") (fun val => convertToUint64 (some val)) 0 ∧
      (buildMetric read).MaxProcessorTime =
        readOr (read "MaxProcessorTime") (fun val => convertToUint64 (some val)) 0 ∧
      (buildMetric read).MaxThroughputBytesRcvd =
        readOr (read "MaxThroughputBytesRcvd") (fun val => convertToUint64 (some val)) 0 ∧
      (buildMetric read).MaxThroughputBytesSent =
        readOr (read "MaxThroughputBytesSent") (fun val => convertToUint64 (some val)) 0 ∧
      (buildMetric read).MaxUserTime =
        readOr (read "MaxUserTime") (fun val => convertToUint64 (some val)) 0 ∧
      (buildMetric read).NetworkInterfaceType =
        readOr (read "NetworkInterfaceType") Value.ToString "" ∧
      (buildMetric read).RamAvgUsage =
        readOr (read "RamAvgUsage") (fun val => convertToFloat64 (some val)) fl.zero ∧
      (buildMetric read).RamMaxUsage =
        readOr (read "RamMaxUsage") (fun val => convertToUint64 (some val)) 0 ∧
      (buildMetric read).SessionID =
        readOr (read "SessionID") (fun val => convertToInt64 (some val)) 0 ∧
      (buildMetric read).SignalStrength =
        readOr (read "SignalStrength") (fun val => convertToUint64 (some val)) 0 ∧
      (buildMetric read).SpeedUnit =
        readOr (read "SpeedUnit") Value.ToString "" ∧
      (buildMetric read).Timestamp =
        readOr (read "Timestamp") Value.timeOrZero Time.zero ∧
      (buildMetric read).SessionGUID = "" := by
  refine ⟨?_, ?_, ?_, ?_, ?_, ?_, ?_, ?_, ?_, ?_, ?_, ?_, ?_, ?_, ?_, ?_, ?_, ?_, ?_, ?_, ?_, ?_, ?_, ?_, ?_, ?_, ?_, ?_⟩ <;>
  (unfold buildMetric
   simp only []
   repeat
     (refine (readProperty_other _ _ _ _ ?_).trans ?_
      · intro val m
        first | rfl | (cases val <;> rfl))
   first
   | rfl
   | (refine readProperty_self _ _ _ _ _ _ ?_ ?_
      · intro val m hm
        first | rfl | (cases val <;> first | rfl | exact hm)
      repeat
        (refine (readProperty_other _ _ _ _ ?_).trans ?_
         · intro val m
           rfl)
      rfl))

/-- C13: whatever subset of the property reads of a row fails, the record
built has each field whose read failed at its type's default (0, the empty
string, the zero time) and every other field equal to the coercion of the
value read for it, so a field depends on its own read only; and failed
property reads do not stop the acquisition: when the connection, the query,
the count read and the item fetches succeed, the record of every row is
appended and no error is returned. -/
theorem buildMetric_tolerates_failed_reads {fl : GoFloat} :
    (∀ read : String → Except String (Value fl),
        (buildMetric read).AvgBeaconLatency =
          readOr (read "AvgBeaconLatency") (fun val => convertToFloat64 (some val)) fl.zero ∧
        (buildMetric read).AvgPrivilegedTime =
          readOr (read "AvgPrivilegedTime") (fun val => convertToFloat64 (some val)) fl.zero ∧
        (buildMetric read).AvgProcessorTime =
          readOr (read "AvgProcessorTime") (fun val => convertToFloat64 (some val)) fl.zero ∧
        (buildMetric read).AvgThroughputBytesRcvd =
          readOr (read "AvgThroughputBytesRcvd") (fun val => convertToFloat64 (some val)) fl.zero ∧
        (buildMetric read).AvgThroughputBytesSent =
          readOr (read "AvgThroughputBytesSent") (fun val => convertToFloat64 (some val)) fl.zero ∧
        (buildMetric read).AvgUserTime =
          readOr (read "AvgUserTime") (fun val => convertToFloat64 (some val)) fl.zero ∧
        (buildMetric read).City =
          readOr (read "City") Value.ToString "" ∧
        (buildMetric read).ClientTimestamp =
          readOr (read "ClientTimestamp") (fun val => convertToUint64 (some val)) 0 ∧
        (buildMetric read).Country =
          readOr (read "Country") Value.ToString "" ∧
        (buildMetric read).EndpointIP =
          readOr (read "EndpointIP") Value.ToString "" ∧
        (buildMetric read).GpuAvgUsage =
          readOr (read "GpuAvgUsage") (fun val => convertToFloat64 (some val)) fl.zero ∧
        (buildMetric read).GpuMaxUsage =
          readOr (read "GpuMaxUsage") (fun val => convertToUint64 (some val)) 0 ∧
        (buildMetric read).ISP =
          readOr (read "ISP") Value.ToString "" ∧
        (buildMetric read).LatencyUnit =
          readOr (read "LatencyUnit") Value.ToString "" ∧
        (buildMetric read).LinkSpeed =
          readOr (read "LinkSpeed") (fun val => convertToUint64 (some val)) 0 ∧
        (buildMetric read).MaxPrivilegedTime =
          readOr (read "MaxPrivilegedTime") (fun val => convertToUint64 (some val)) 0 ∧
        (buildMetric read).MaxProcessorTime =
          readOr (read "MaxProcessorTime") (fun val => convertToUint64 (some val)) 0 ∧
        (buildMetric read).MaxThroughputBytesRcvd =
          readOr (read "MaxThroughputBytesRcvd") (fun val => convertToUint64 (some val)) 0 ∧
        (buildMetric read).MaxThroughputBytesSent =
          readOr (read "MaxThroughputBytesSent") (fun val => convertToUint64 (some val)) 0 ∧
        (buildMetric read).MaxUserTime =
          readOr (read "MaxUserTime") (fun val => convertToUint64 (some val)) 0 ∧
        (buildMetric read).NetworkInterfaceType =
          readOr (read "NetworkInterfaceType") Value.ToString "" ∧
        (buildMetric read).RamAvgUsage =
          readOr (read "RamAvgUsage") (fun val => convertToFloat64 (some val)) fl.zero ∧
        (buildMetric read).RamMaxUsage =
          readOr (read "RamMaxUsage") (fun val => convertToUint64 (some val)) 0 ∧
        (buildMetric read).SessionID =
          readOr (read "SessionID") (fun val => convertToInt64 (some val)) 0 ∧
        (buildMetric read).SignalStrength =
          readOr (read "SignalStrength") (fun val => convertToUint64 (some val)) 0 ∧
        (buildMetric read).SpeedUnit =
          readOr (read "SpeedUnit") Value.ToString "" ∧
        (buildMetric read).Timestamp =
          readOr (read "Timestamp") Value.timeOrZero Time.zero ∧
        (buildMetric read).SessionGUID = "") ∧
      ∀ (p : Provider fl) (unknown wmi service res : Nat) (count : Int) (items : Nat → Nat),
        p.CoInitializeEx = none → p.CreateObject = .ok unknown →
        p.QueryInterface unknown = .ok wmi → p.ConnectServer wmi = .ok service →
        p.ExecQuery service = .ok res → p.Count res = .ok count →
        (∀ i : Nat, (i : Int) < count → p.ItemIndex res i = .ok (items i)) →
        (GetCitrixMetrics p).err = none ∧
          (GetCitrixMetrics p).metrics.length = count.toNat ∧
          ∀ i : Nat, (i : Int) < count →
            (GetCitrixMetrics p).metrics[i]? = some (buildMetric (p.GetProperty (items i))) := by
  refine ⟨buildMetric_fields, ?_⟩
  intro p unknown wmi service res count items h0 h1 h2 h3 h4 h5 hitems
  obtain ⟨s, hs⟩ := GetCitrixMetrics_of_count p unknown wmi service res count h0 h1 h2 h3 h4 h5
  obtain ⟨he, hm⟩ := itemLoop_ok p res items count.toNat 0 s []
    (fun j hj => by simpa using hitems j (by omega))
  rw [hs]
  have hm' : (itemLoop p res count.toNat 0 s []).metrics =
      (List.range count.toNat).map (fun i => buildMetric (p.GetProperty (items i))) := by
    simpa using hm
  refine ⟨he, by rw [hm', List.length_map, List.length_range], fun i hi => ?_⟩
  rw [hm', List.getElem?_map, List.getElem?_range (by omega)]
  rfl

/-- C13, at the second row of a provider whose reads of City and Country
fail: these two fields are empty, the fields read are set, the record is the
second of two and no error is returned. -/
theorem buildMetric_tolerates_failed_reads_witness :
    (twoRowProvider.CoInitializeEx = none ∧ twoRowProvider.CreateObject = .ok 1 ∧
      twoRowProvider.QueryInterface 1 = .ok 2 ∧ twoRowProvider.ConnectServer 2 = .ok 3 ∧
      twoRowProvider.ExecQuery 3 = .ok 4 ∧ twoRowProvider.Count 4 = .ok 2 ∧
      (∀ i : Nat, (i : Int) < 2 → twoRowProvider.ItemIndex 4 i = .ok (10 + i))) ∧
      twoRowProvider.GetProperty 11 "City" = .error "property not found" ∧
      (GetCitrixMetrics twoRowProvider).err = none ∧
      (GetCitrixMetrics twoRowProvider).metrics[1]? =
        some (buildMetric (twoRowProvider.GetProperty 11)) ∧
      (buildMetric (twoRowProvider.GetProperty 11)).City = "" ∧
      (buildMetric (twoRowProvider.GetProperty 11)).LinkSpeed = 1000 ∧
      (buildMetric (twoRowProvider.GetProperty 11)).SignalStrength = 0 ∧
      (buildMetric (twoRowProvider.GetProperty 11)).Timestamp = Time.zero :=
  ⟨⟨rfl, rfl, rfl, rfl, rfl, rfl, fun _ _ => rfl⟩, rfl,
    (buildMetric_tolerates_failed_reads.2 twoRowProvider 1 2 3 4 2 (fun i => 10 + i)
      rfl rfl rfl rfl rfl rfl (fun _ _ => rfl)).1,
    (buildMetric_tolerates_failed_reads.2 twoRowProvider 1 2 3 4 2 (fun i => 10 + i)
      rfl rfl rfl rfl rfl rfl (fun _ _ => rfl)).2.2 1 (by decide),
    by decide, by decide, by decide, by decide⟩

/-! ## The syntax of `strconv.ParseFloat` -/

/-- A text without underscores has them between digits. -/
theorem separatedFrom_of_not_mem (digit : Char → Bool) (start : Prop) (s : List Char)
    (h : '_' ∉ s) : separatedFrom digit start s := by
  intro a b hab
  exact absurd (by rw [hab]; simp) h

set_option maxRecDepth 100000 in
/-- The function `strconv.ParseFloat` on a few texts: a tenth, a negative
number with an exponent, `1e23`, a hexadecimal literal, a digit separator, a
negative zero, the spellings of the special values, and two texts it
refuses. -/
theorem ParseFloat_samples :
    ParseFloat "0.1" = (.finite false 3602879701896397 (-55), none) ∧
      ParseFloat "-2.5e-3" = (.finite true 5764607523034235 (-61), none) ∧
      ParseFloat "1e23" = (.finite false 2980232238769531 25, none) ∧
      ParseFloat "8.5E+2" = (.finite false 425 1, none) ∧
      ParseFloat "0x1p-2" = (.finite false 1 (-2), none) ∧
      ParseFloat "0X1.8P1" = (.finite false 3 0, none) ∧
      ParseFloat "1_0" = (.finite false 5 1, none) ∧
      ParseFloat "-0" = (.finite true 0 0, none) ∧
      ParseFloat "+Inf" = (.inf false, none) ∧
      ParseFloat "-infinity" = (.inf true, none) ∧
      ParseFloat "NaN" = (.nan, none) ∧
      ParseFloat "1e" = (.finite false 0 0, some .malformed) ∧
      ParseFloat "0x1F" = (.finite false 0 0, some .malformed) := by
  decide

set_option maxRecDepth 100000 in
/-- The two roundings agree: the float an integer converts to is the float
nearest to it, at the integers of the evaluations. -/
theorem ofInt_samples :
    Binary64.ofInt 9007199254740993 = (roundBinary64 false 9007199254740993 1).1 ∧
      Binary64.ofInt 18446744073709551615 = (roundBinary64 false 18446744073709551615 1).1 ∧
      Binary64.ofInt (-9007199254740993) = (roundBinary64 true 9007199254740993 1).1 ∧
      Binary64.ofInt (-5) = (roundBinary64 true 5 1).1 ∧
      Binary64.ofInt 4294967295 = (roundBinary64 false 4294967295 1).1 := by
  decide

/-! ## Decimal or scientific text -/

/-- The characters of decimal or scientific text. -/
theorem scientificText_chars (s : List Char) (h : scientificText s) :
    s.all (fun c => c.isDigit || decide (c ∈ ['.', 'e', 'E', '+', '-'])) = true := by
  obtain ⟨sign, m, ex, hs, hsign, hm, -, -, hex⟩ := h
  rw [hs, List.all_eq_true]
  intro c hc
  simp only [Bool.or_eq_true, decide_eq_true_eq]
  rcases List.mem_append.1 hc with hc | hc
  · rcases hsign with h0 | h0 | h0 <;> rw [h0] at hc <;> simp at hc <;> rw [hc] <;> decide
  · rcases List.mem_append.1 hc with hc | hc
    · rcases hm c hc with h1 | h1
      · exact Or.inl h1
      · rw [h1]; decide
    · rcases hex with h0 | ⟨l, sign1, ds, hex, hl, hsign1, -, hds⟩
      · rw [h0] at hc
        simp at hc
      · rw [hex] at hc
        rcases List.mem_cons.1 hc with hc | hc
        · rcases hl with hl | hl <;> rw [hc, hl] <;> decide
        · rcases List.mem_append.1 hc with hc | hc
          · rcases hsign1 with h0 | h0 | h0 <;> rw [h0] at hc <;> simp at hc <;> rw [hc] <;>
              decide
          · exact Or.inl (hds c hc)

/-- Decimal or scientific text is a decimal floating-point literal, one
without underscores. -/
theorem scientificText_decimalText (s : List Char) (h : scientificText s) : decimalText s := by
  have hchars := scientificText_chars s h
  obtain ⟨sign, m, ex, hs, hsign, hm, hdig, hcount, hex⟩ := h
  refine ⟨sign, m, ex, hs, hsign, ⟨fun c hc => (hm c hc).imp id Or.inr, hdig, hcount⟩, ?_, ?_⟩
  · rcases hex with h0 | ⟨l, sign1, ds, hex, hl, hsign1, hne, hds⟩
    · exact Or.inl h0
    · cases ds with
      | nil => exact absurd rfl hne
      | cons d ds1 =>
        exact Or.inr ⟨l, sign1, d, ds1, hex, hl, hsign1, hds d (List.mem_cons_self _ _),
          fun c hc => Or.inl (hds c (List.mem_cons_of_mem _ hc))⟩
  · apply separatedFrom_of_not_mem
    intro hmem
    have := List.all_eq_true.1 hchars '_' hmem
    revert this
    decide

/-! ## The floats of `binary64` -/

end EndpointMetrics
